import Mathlib

/-!
Shallow embedding of the intervention decision service of
`server/index.js` (focus-flow AI backend).

Conventions used throughout:
* JS strings are modelled as Lean `String`; `String(x).slice(0, n)` is
  `strTake n`, `.trim()` is `jsTrim`, `.toLowerCase()` is `lowerStr`,
  `.includes(t)` is `strContainsSub`.
* JS numbers are modelled as `ℚ` (all numbers in this code path are finite);
  `Math.round` is `jsRound` (floor of x + 1/2, the JS rounding rule).
* JSON values that the code coerces with `String(x || "")`, `Boolean(x)`,
  `x || 0` are modelled after coercion (a missing/falsy field collapses to
  the coerced default), with `Option` used where the code distinguishes
  `undefined`/`null` from a present value.
* The two LLM providers perform network I/O; their results are passed in
  as explicit oracle values (`Except String …` / `Option …`), so the whole
  pipeline is a pure function of the request payload, the session bucket,
  the clock, and the oracle outcomes.
-/

namespace FocusFlow

/-! ## JS string primitives -/

/-- `String.prototype.slice(0, n)` (character-counted). -/
def strTake (n : ℕ) (s : String) : String := ⟨s.data.take n⟩

/-- JS whitespace characters relevant to `trim` / the `\s` regex class. -/
def isWsChar (c : Char) : Bool := c == ' ' || c == '\t' || c == '\n' || c == '\r'

/-- `String.prototype.trim()`. -/
def jsTrim (s : String) : String :=
  ⟨(s.data.dropWhile isWsChar).reverse.dropWhile isWsChar |>.reverse⟩

/-- `String.prototype.toLowerCase()` (ASCII, which is all this code uses). -/
def lowerStr (s : String) : String := ⟨s.data.map Char.toLower⟩

/-- Does `l` start with `p`? -/
def listStartsWith : List Char → List Char → Bool
  | [], _ => true
  | _ :: _, [] => false
  | a :: as, b :: bs => a == b && listStartsWith as bs

/-- Does `hay` contain `needle` as a contiguous run?  (`String.includes`.) -/
def listContainsSub (needle : List Char) : List Char → Bool
  | [] => listStartsWith needle []
  | c :: cs => listStartsWith needle (c :: cs) || listContainsSub needle cs

/-- `hay.includes(needle)`. -/
def strContainsSub (hay needle : String) : Bool :=
  listContainsSub needle.data hay.data

/-- `a || b` on strings-or-null: a non-empty `some` wins, else fall through. -/
def jsOrStr (a b : Option String) : Option String :=
  match a with
  | some s => if s = "" then b else some s
  | none => b

/-- `x || null` for a string-valued field: `""` and missing collapse to null. -/
def jsStrOrNull (a : Option String) : Option String := jsOrStr a none

/-- `Math.round`: round half toward +∞. -/
def jsRound (q : ℚ) : ℤ := Rat.floor (q + 1/2)

/-! ## Tokenisation (`tokenize` in the source) -/

def isAlnumLower (c : Char) : Bool :=
  ('a' ≤ c && c ≤ 'z') || ('0' ≤ c && c ≤ '9')

/-- Split a char list into maximal runs of `[a-z0-9]` characters
(`.split(/[^a-z0-9]+/)`, with the empty fragments the JS split can produce
dropped here; the caller filters on length ≥ 3, so they never matter). -/
def splitAlnumAux (acc : List Char) : List Char → List String
  | [] => if acc.isEmpty then [] else [⟨acc.reverse⟩]
  | c :: cs =>
    if isAlnumLower c then splitAlnumAux (c :: acc) cs
    else if acc.isEmpty then splitAlnumAux [] cs
    else ⟨acc.reverse⟩ :: splitAlnumAux [] cs

def STOPWORDS : List String :=
  ["the", "and", "for", "with", "that", "this", "from", "into", "about", "your", "you",
   "are", "was", "were", "have", "has", "had", "will", "would", "could", "should", "can",
   "academy", "welcome", "home", "login", "parent", "teacher", "learner"]

/-- `tokenize(text)`. -/
def tokenize (text : String) : List String :=
  (splitAlnumAux [] (lowerStr text).data).filter
    (fun w => 3 ≤ w.length && !(STOPWORDS.contains w))

/-! ## Topic families (`TOPIC_SYNONYMS`, `inferTopicFamily`, `topicTerms`) -/

def TOPIC_SYNONYMS : List (String × List String) :=
  [("coding", ["program", "programming", "code", "coding", "algorithm", "function",
               "loop", "array", "linked", "tree", "stack", "queue", "complexity",
               "javascript", "react", "hooks", "state", "component", "useeffect",
               "usestate"]),
   ("physics", ["force", "motion", "energy", "velocity", "acceleration", "torque",
                "momentum", "newton"]),
   ("chemistry", ["atom", "molecule", "reaction", "oxidation", "reduction", "acid",
                  "base", "bond"]),
   ("biology", ["cell", "gene", "enzyme", "organism", "dna", "protein", "evolution"]),
   ("math", ["algebra", "calculus", "equation", "derivative", "integral", "geometry",
             "probability"]),
   ("history", ["empire", "war", "revolution", "timeline", "civilization", "treaty"]),
   ("economics", ["demand", "supply", "inflation", "gdp", "market", "elasticity"])]

/-- `TOPIC_SYNONYMS[topicFamily] || []`. -/
def synonymsOf (family : String) : List String :=
  match TOPIC_SYNONYMS.find? (fun e => e.1 == family) with
  | some e => e.2
  | none => []

/-- `inferTopicFamily(studyTopic)`: best-scoring family, ties to the earlier
entry (strict `>` in the source), `"general"` when no token matches. -/
def inferTopicFamily (studyTopic : String) : String :=
  let tokens := tokenize studyTopic
  if tokens.isEmpty then "general"
  else
    let best := TOPIC_SYNONYMS.foldl
      (fun (best : String × ℕ) entry =>
        let lexicon := entry.1 :: entry.2
        let score := (tokens.filter (fun t => lexicon.contains t)).length
        if best.2 < score then (entry.1, score) else best)
      ("general", 0)
    if 0 < best.2 then best.1 else "general"

/-- Insertion-order deduplication (`[...new Set([...])]`). -/
def dedupKeepFirst (seen : List String) : List String → List String
  | [] => []
  | x :: xs =>
    if seen.contains x then dedupKeepFirst seen xs
    else x :: dedupKeepFirst (x :: seen) xs

/-- `topicTerms(studyTopic, topicFamily)`. -/
def topicTerms (studyTopic topicFamily : String) : List String :=
  dedupKeepFirst [] ((tokenize studyTopic).take 8 ++ synonymsOf topicFamily)

/-! ## Data model -/

/-- `latest.content` in `summarizeForModel`: nested page-content fields. -/
structure EvContent where
  headings : Option (List String)
  summary : Option String
  word_count : Option ℚ
  deriving DecidableEq

/-- One element of `payload.events`.  Fields the code coerces with
`Boolean(...)` are stored post-coercion; `metadata`/`youtube` are opaque to
the decision logic (they only flow into prompts) and are kept as opaque
option strings. -/
structure EventRec where
  domain : Option String
  category : Option String
  page_title : Option String
  is_allowed : Bool
  is_relevant_to_topic : Option Bool
  inactivity_seconds : Option ℚ
  mouse_score : Option ℚ
  scroll_speed_px_per_sec : Option ℚ
  clicks_per_minute : Option ℚ
  content : Option EvContent
  metadata : Option String
  youtube : Option String
  deriving DecidableEq

/-- `latest = events[events.length - 1] || {}` with every field absent. -/
def emptyEvent : EventRec :=
  { domain := none, category := none, page_title := none, is_allowed := false
    is_relevant_to_topic := none, inactivity_seconds := none, mouse_score := none
    scroll_speed_px_per_sec := none, clicks_per_minute := none, content := none
    metadata := none, youtube := none }

/-- The request body of `/api/ai/analyze` (the fields the service reads). -/
structure Payload where
  trigger_type : Option String
  requested_intervention : Option String
  study_topic : Option String
  session_duration : Option ℚ
  tab_switches : Option ℚ
  active_tab_time_seconds : Option ℚ
  domain : Option String
  category : Option String
  page_title : Option String
  active_tab_id : Option String
  events : List EventRec
  deriving DecidableEq

/-- Output of `summarizeForModel(payload)`. -/
structure ModelInput where
  trigger_type : Option String
  requested_intervention : Option String
  study_topic : String
  session_duration : ℚ
  tab_switches : ℚ
  active_tab_time_seconds : ℚ
  domain : Option String
  category : String
  page_title : String
  is_allowed : Bool
  is_relevant_to_topic : Option Bool
  inactivity_seconds : ℚ
  mouse_score : ℚ
  scroll_speed_px_per_sec : ℚ
  clicks_per_minute : ℚ
  headings : List String
  summary : String
  word_count : ℚ
  metadata : Option String
  youtube : Option String
  deriving DecidableEq

/-- `summarizeForModel(payload)`. -/
def summarizeForModel (p : Payload) : ModelInput :=
  let latest := (p.events.getLast?).getD emptyEvent
  { trigger_type := jsStrOrNull p.trigger_type
    requested_intervention := jsStrOrNull p.requested_intervention
    study_topic := (p.study_topic).getD ""
    session_duration := (p.session_duration).getD 0
    tab_switches := (p.tab_switches).getD 0
    active_tab_time_seconds := (p.active_tab_time_seconds).getD 0
    domain := jsStrOrNull (jsOrStr latest.domain p.domain)
    category := (jsOrStr latest.category p.category).getD "unknown"
    page_title := (jsOrStr latest.page_title p.page_title).getD ""
    is_allowed := latest.is_allowed
    is_relevant_to_topic := latest.is_relevant_to_topic
    inactivity_seconds := (latest.inactivity_seconds).getD 0
    mouse_score := (latest.mouse_score).getD 0
    scroll_speed_px_per_sec := (latest.scroll_speed_px_per_sec).getD 0
    clicks_per_minute := (latest.clicks_per_minute).getD 0
    headings := ((latest.content).bind (·.headings)).getD []
    summary := ((latest.content).bind (·.summary)).getD ""
    word_count := ((latest.content).bind (·.word_count)).getD 0
    metadata := latest.metadata
    youtube := latest.youtube }

/-- `TopicProfile` (output of `computeTopicRelevance`). -/
structure TopicProfile where
  topic_family : String
  topic_terms : List String
  matched_terms : List String
  relevance_score : ℚ
  context_quality : String
  deriving DecidableEq

/-- `Number(score.toFixed(2))`: round to 2 decimal places (half away from
zero in JS; the scores here are non-negative, so half-up suffices). -/
def round2 (q : ℚ) : ℚ := (jsRound (q * 100) : ℚ) / 100

/-- `computeTopicRelevance(modelInput)`. -/
def computeTopicRelevance (m : ModelInput) : TopicProfile :=
  let topicFamily := inferTopicFamily m.study_topic
  let terms := topicTerms m.study_topic topicFamily
  let sourceText := String.intercalate " " ([m.page_title] ++ m.headings ++ [m.summary])
  let sourceTokens := tokenize sourceText
  let matched := terms.filter (fun t => sourceTokens.contains t)
  let score : ℚ :=
    if terms.length = 0 then 0
    else min 1 ((matched.length : ℚ) / (max 4 terms.length : ℕ))
  let contextQuality :=
    if (35 : ℚ)/100 ≤ score then "good" else if (15 : ℚ)/100 ≤ score then "weak" else "none"
  { topic_family := topicFamily, topic_terms := terms, matched_terms := matched
    relevance_score := round2 score, context_quality := contextQuality }

/-! ## Decision model and `sanitizeDecision` -/

/-- A sanitized flashcard. -/
structure Flashcard where
  question : String
  options : List String
  answer : String
  hint : String
  explanation : String
  deriving DecidableEq

/-- One line of a mascot script after the speaker has been assigned. -/
structure MLine where
  speaker : String
  text : String
  deriving DecidableEq

/-- One raw line as parsed from LLM JSON (`x?.text || ""` pre-applied; the
speaker the model may have emitted is never read by the code). -/
structure JLine where
  text : String
  deriving DecidableEq

/-- Raw flashcard fields as parsed from LLM JSON, after the `String(x || "")`
coercions; `options` is `none` when `Array.isArray` fails. -/
structure RawFlash where
  question : String
  options : Option (List String)
  answer : String
  hint : String
  explanation : String
  deriving DecidableEq

/-- Raw decision JSON from the model, after JS value coercions:
a field is `none` when it is missing or fails the corresponding
`Number.isFinite` / `Array.isArray` / set-membership style guard input type
(e.g. a non-string `status` behaves exactly like an unknown string, so it is
modelled as `none`). -/
structure RawDecision where
  status : Option String
  confidence : Option ℚ
  intervention : Option String
  cooldown_seconds : Option ℚ
  reason_codes : Option (List String)
  flashcard : Option RawFlash
  mascot_script : Option (List JLine)
  generation_failed : Bool
  deriving DecidableEq

/-- The `Decision` record returned by the service. -/
structure Decision where
  status : String
  confidence : ℚ
  intervention : String
  cooldown_seconds : ℤ
  reason_codes : List String
  flashcard : Option Flashcard
  mascot_script : Option (List MLine)
  generation_failed : Bool
  deriving DecidableEq

/-- `fc i = "devil"` on even `i`, `"angel"` on odd `i`
(`idx % 2 === 0 ? "devil" : "angel"`). -/
def altSpeaker (i : ℕ) : String := if i % 2 = 0 then "devil" else "angel"

/-- Assign alternating speakers and truncate each text to `trunc` chars,
numbering from `i` (the `map((line, idx) => …)` pattern in the source). -/
def forceSpeakers (trunc : ℕ) : ℕ → List JLine → List MLine
  | _, [] => []
  | i, x :: xs => ⟨altSpeaker i, strTake trunc x.text⟩ :: forceSpeakers trunc (i + 1) xs

/-- Same reassignment applied to already-assigned lines (the
`script.slice(0, 4).map((line, i) => …)` re-normalisation). -/
def forceSpeakersM (trunc : ℕ) : ℕ → List MLine → List MLine
  | _, [] => []
  | i, x :: xs => ⟨altSpeaker i, strTake trunc x.text⟩ :: forceSpeakersM trunc (i + 1) xs

def statusSet : List String := ["focused", "mild_distraction", "distracted", "severe_distraction"]

def interventionSet : List String := ["none", "flashcard", "mascot_chat"]

/-- `sanitizeDecision(raw)`. -/
def sanitizeDecision (raw : RawDecision) : Decision :=
  let status := match raw.status with
    | some s => if statusSet.contains s then s else "focused"
    | none => "focused"
  let confidence : ℚ := match raw.confidence with
    | some c => max 0 (min 1 c)
    | none => 1/2
  let intervention := match raw.intervention with
    | some s => if interventionSet.contains s then s else "none"
    | none => "none"
  { status := status
    confidence := confidence
    intervention := intervention
    cooldown_seconds := match raw.cooldown_seconds with
      | some c => max 10 (min 180 (jsRound c))
      | none => 15
    reason_codes := match raw.reason_codes with
      | some rs => (rs.take 5).map (strTake 60)
      | none => []
    flashcard := (raw.flashcard).map (fun f =>
      { question := strTake 260 f.question
        options := ((f.options).getD []).take 4 |>.map (strTake 120)
        answer := strTake 120 f.answer
        hint := strTake 180 f.hint
        explanation := strTake 320 f.explanation })
    mascot_script := (raw.mascot_script).map (fun xs => forceSpeakers 220 0 (xs.take 8))
    generation_failed := raw.generation_failed }

/-- The `isDistractedHeuristic` condition of `fallbackDecision`. -/
def distractedHeuristic (latest : ModelInput) : Bool :=
  decide (40 < latest.inactivity_seconds)
    || (latest.is_relevant_to_topic == some false)
    || (latest.is_allowed == false && decide (latest.mouse_score < 1/4))

/-- `fallbackDecision(payload)`: the heuristic no-LLM classification. -/
def fallbackDecision (p : Payload) : Decision :=
  let latest := summarizeForModel p
  let isDistractedHeuristic : Bool := distractedHeuristic latest
  if !isDistractedHeuristic then
    { status := "focused", confidence := 62/100, intervention := "none"
      cooldown_seconds := 90
      reason_codes := ["fallback_focused", "ai_provider_unavailable"]
      flashcard := none, mascot_script := none, generation_failed := true }
  else
    { status := "distracted", confidence := 66/100, intervention := "none"
      cooldown_seconds := 90
      reason_codes := ["fallback_distraction_detected", "ai_provider_unavailable"]
      flashcard := none, mascot_script := none, generation_failed := true }

/-! ## Flashcard normalisation and validation -/

/-- Characters of the regex class `[\).:\-\s]` used by
`normalizeFlashcardAnswer`'s letter pattern. -/
def isAnswerSep (c : Char) : Bool :=
  c == ')' || c == '.' || c == ':' || c == '-' || isWsChar c

/-- The match `raw.match(/^([A-D])(?:[\).:\-\s]|$)/i)`: `some i` (0-based
option index) when the trimmed answer starts with an option letter followed
by a separator or end-of-string. -/
def answerLetterIdx (raw : String) : Option ℕ :=
  match raw.data with
  | [] => none
  | c :: rest =>
    let u := c.toUpper
    if (u == 'A' || u == 'B' || u == 'C' || u == 'D')
        && (rest.isEmpty || isAnswerSep (rest.headD ' ')) then
      some (u.toNat - 'A'.toNat)
    else none

/-- `normalizeFlashcardAnswer(card)`. -/
def normalizeFlashcardAnswer (card : RawFlash) : Flashcard :=
  let normalized : Flashcard :=
    { question := card.question
      options := (card.options).getD []
      answer := card.answer
      hint := card.hint
      explanation := card.explanation }
  let raw := jsTrim normalized.answer
  match answerLetterIdx raw with
  | some idx =>
    if 4 ≤ normalized.options.length then
      if idx < normalized.options.length then
        { normalized with answer := normalized.options.getD idx "" }
      else normalized
    else normalized
  | none => normalized

def bannedFlashPhrases : List String :=
  ["welcome to", "this page", "homepage", "platform description", "click here",
   "which option best explains a beginner concept in"]

/-- `isLowQualityFlashcard(card, studyTopic, profile)`. -/
def isLowQualityFlashcard (card : Flashcard) (studyTopic : String)
    (profile : TopicProfile) : Bool :=
  if card.question = "" then true
  else if card.options.length ≠ 4 then true
  else
    let q := jsTrim card.question
    let options := (card.options.map jsTrim).filter (fun o => o ≠ "")
    let answer := jsTrim card.answer
    if q = "" || q.length < 16 then true
    else if options.length ≠ 4 then true
    else if answer = "" then true
    else if (dedupKeepFirst [] (options.map lowerStr)).length < 4 then true
    else
      let answerLower := lowerStr answer
      let hasAnswerMatch := options.any (fun o =>
        let opt := lowerStr o
        opt == answerLower || strContainsSub opt answerLower
          || strContainsSub answerLower opt)
      if !hasAnswerMatch then true
      else
        let blob := lowerStr (q ++ " " ++ String.intercalate " " options ++ " "
          ++ card.hint ++ " " ++ card.explanation)
        if bannedFlashPhrases.any (fun p => strContainsSub blob p) then true
        else
          let terms := topicTerms studyTopic profile.topic_family
          let topicWords := (tokenize studyTopic).filter (fun w => 4 ≤ w.length)
          let hasTopicWord := topicWords.any (fun w => strContainsSub blob w)
          let hasFamilySignal := terms.any (fun t =>
            4 ≤ t.length && strContainsSub blob t)
          if !hasTopicWord && !hasFamilySignal then true
          else false

/-- `hasUsableFlashcard(card)` — the lenient structural gate. -/
def hasUsableFlashcard : Option Flashcard → Bool
  | none => false
  | some card =>
    let question := jsTrim card.question
    let options := card.options.filter (fun x => jsTrim x ≠ "")
    10 ≤ question.length && 2 ≤ options.length

/-! ## Mascot script validation -/

def mascotGenericSignals : List String :=
  ["come back", "stay focused", "one more minute", "back to work", "stay here"]

/-- `looksGenericMascotScript(script, studyTopic, domain, profile)`. -/
def looksGenericMascotScript (script : List MLine) (studyTopic : String)
    (domain : Option String) (profile : TopicProfile) : Bool :=
  if script.length < 4 then true
  else
    let blob := lowerStr (String.intercalate " " (script.map (·.text)))
    let genericCount := (mascotGenericSignals.filter
      (fun s => strContainsSub blob s)).length
    let terms := topicTerms studyTopic profile.topic_family
    let hasTopic := if terms.isEmpty then false
      else terms.any (fun t => strContainsSub blob t)
    let hasDomain := match domain with
      | some d => if d = "" then false else strContainsSub blob (lowerStr d)
      | none => false
    2 ≤ genericCount || (!hasTopic && !hasDomain)

/-- `hasTopicContextInLine(text, profile, domain)`. -/
def hasTopicContextInLine (text : String) (profile : TopicProfile)
    (domain : Option String) : Bool :=
  let lower := lowerStr text
  if lower = "" then false
  else
    let domainHit := match domain with
      | some d => if d = "" then false else strContainsSub lower (lowerStr d)
      | none => false
    if domainHit then true
    else
      let terms := profile.topic_terms ++ profile.matched_terms
      terms.any (fun t => 4 ≤ t.length && strContainsSub lower t)

/-- `hasExplicitStudyTopicMention(text, studyTopic)`. -/
def hasExplicitStudyTopicMention (text studyTopic : String) : Bool :=
  let lower := lowerStr text
  let topicWords := (tokenize studyTopic).filter (fun w => 4 ≤ w.length)
  if topicWords.isEmpty then false
  else topicWords.any (fun w => strContainsSub lower w)

def devilLureSignals : List String :=
  ["just one more", "take a break", "later", "scroll", "reel", "feed", "ignore",
   "skip", "procrast", "you deserve", "not now", "waste", "avoid"]

def devilPositiveStudySignals : List String :=
  ["great job", "keep studying", "you are doing great", "focus now", "good work",
   "you got this", "well done"]

/-- `isDevilLineWeak(text)`: the devil praises studying without tempting. -/
def isDevilLineWeak (text : String) : Bool :=
  let lower := lowerStr text
  let hasLure := devilLureSignals.any (fun s => strContainsSub lower s)
  let hasPositiveStudy := devilPositiveStudySignals.any (fun s => strContainsSub lower s)
  hasPositiveStudy && !hasLure

/-- `hasUsableMascotScript(script)` — the lenient structural gate
(`none` models a non-array/null argument). -/
def hasUsableMascotScript : Option (List MLine) → Bool
  | none => false
  | some script =>
    if script.length < 4 then false
    else
      let lines := (script.take 4).map (fun x => jsTrim x.text)
      lines.all (fun text => 8 ≤ text.length)

def mascotOrder : List String := ["devil", "angel", "devil", "angel"]

/-- `validateMascotScriptStrict(script, profile, domain, studyTopic)`. -/
def validateMascotScriptStrict (script : Option (List MLine))
    (profile : TopicProfile) (domain : Option String) (studyTopic : String) : Bool :=
  match script with
  | none => false
  | some script =>
    if script.length < 4 then false
    else
      let normalized := (mascotOrder.zip (script.take 4)).map
        (fun pr => (⟨pr.1, jsTrim pr.2.text⟩ : MLine))
      if !(normalized.all (fun line => 8 ≤ line.text.length)) then false
      else if !((normalized.zip mascotOrder).all (fun pr => pr.1.speaker == pr.2)) then
        false
      else
        let weakDevilCount := (normalized.filter
          (fun line => line.speaker == "devil" && isDevilLineWeak line.text)).length
        if 2 ≤ weakDevilCount then false
        else if !(normalized.any (fun line =>
            hasTopicContextInLine line.text profile domain
              || hasExplicitStudyTopicMention line.text studyTopic)) then false
        else if looksGenericMascotScript normalized studyTopic domain profile
            && !(normalized.any (fun line =>
              hasExplicitStudyTopicMention line.text studyTopic)) then false
        else
          let blob := String.intercalate " " (normalized.map (fun x => lowerStr x.text))
          if 3 ≤ ((["stay focused", "one more minute", "come back"].filter
              (fun p => strContainsSub blob p)).length) then false
          else true

/-! ## LLM provider gateway -/

/-- Which providers have credentials configured
(`GEMINI_API_KEY` / `GROQ_API_KEY` truthiness). -/
structure Config where
  geminiKey : Bool
  groqKey : Bool
  deriving DecidableEq

/-- `err?.message || "unknown"`. -/
def jsErrMsg (e : String) : String := if e = "" then "unknown" else e

/-- One iteration of the provider loop of `runLlmJsonPrompt`: on success
short-circuits with the raw text, otherwise extends the recorded error
list (a provider without credentials is skipped, leaving the list as is).
The network outcome of each provider call is the oracle `gem` / `gro`. -/
def providerStep (cfg : Config) (gem gro : Except String String)
    (errs : List String) (provider : String) : Except (List String) String :=
  if provider == "gemini" && cfg.geminiKey then
    match gem with
    | .ok t => .ok t
    | .error e => .error (errs ++ ["gemini:" ++ jsErrMsg e])
  else if provider == "groq" && cfg.groqKey then
    match gro with
    | .ok t => .ok t
    | .error e => .error (errs ++ ["groq:" ++ jsErrMsg e])
  else .error errs

/-- `runLlmJsonPrompt(prompt, preferredProvider)`: the prompt itself does not
influence control flow, so it is omitted; `gem`/`gro` are the oracle outcomes
of `runGeminiJsonPrompt`/`runGroqJsonPrompt`. -/
def runLlmJsonPrompt (cfg : Config) (preferredProvider : String)
    (gem gro : Except String String) : Except String String :=
  let providers := if preferredProvider == "groq" then ["groq", "gemini"]
    else ["gemini", "groq"]
  let outcome := providers.foldl
    (fun (st : Except (List String) String) p => match st with
      | .ok t => .ok t
      | .error errs => providerStep cfg gem gro errs p)
    (Except.error ([] : List String))
  match outcome with
  | .ok t => .ok t
  | .error errs =>
    .error (if errs.isEmpty then "no_llm_provider_configured"
      else String.intercalate " | " errs)

/-! ## Generation orchestrators

The per-attempt LLM round-trips (`runLlmJsonPrompt` + `JSON.parse` +
field extraction) are passed in as oracles: `none` models a thrown
exception or a missing/ill-typed field, `some` the successfully parsed
payload. -/

/-- Result record of `generateFlashcardWithGemini` /
`generateFlashcardWithRetries`. -/
structure FlashGenOut where
  card : Option Flashcard
  generation_mode : String
  quality_reject_reason : Option String
  deriving DecidableEq

structure FlashRetOut where
  card : Option Flashcard
  generation_mode : String
  quality_reject_reason : Option String
  attempts : ℤ
  deriving DecidableEq

/-- The truncation applied to a parsed flashcard before
`normalizeFlashcardAnswer` inside the orchestrators. -/
def truncParsedFlash (parsed : RawFlash) : RawFlash :=
  { question := strTake 260 parsed.question
    options := some (((parsed.options).getD []).take 4 |>.map (strTake 140))
    answer := strTake 180 parsed.answer
    hint := strTake 220 parsed.hint
    explanation := strTake 360 parsed.explanation }

/-- `generateFlashcardWithGemini(payload, profile, mode)` with the LLM
round-trip outcome as oracle `o`. -/
def generateFlashcardWithGemini (cfg : Config) (p : Payload)
    (profile : TopicProfile) (mode : String) (o : Option RawFlash) : FlashGenOut :=
  if !cfg.geminiKey && !cfg.groqKey then
    { card := none, generation_mode := "llm_unavailable"
      quality_reject_reason := some "missing_api_key" }
  else
    let latest := summarizeForModel p
    match o with
    | none =>
      { card := none, generation_mode := mode
        quality_reject_reason := some "generation_error" }
    | some parsed =>
      let card := normalizeFlashcardAnswer (truncParsedFlash parsed)
      if isLowQualityFlashcard card latest.study_topic profile then
        { card := some card, generation_mode := mode
          quality_reject_reason := some "generic_flashcard_relaxed_accept" }
      else { card := some card, generation_mode := mode, quality_reject_reason := none }

/-- `modes.indexOf(mode)` (always found here, so the JS `-1` case is moot). -/
def jsIndexOf (l : List String) (x : String) : ℤ :=
  match l.findIdx? (fun y => y == x) with
  | some i => (i : ℤ)
  | none => -1

/-- `generateFlashcardWithRetries(payload, profile)`; `o1 o2` are the two
mode attempts, `orescue` the final rescue prompt round-trip. -/
def generateFlashcardWithRetries (cfg : Config) (p : Payload)
    (profile : TopicProfile) (o1 o2 orescue : Option RawFlash) : FlashRetOut :=
  let modes := [if profile.context_quality == "good" then "context_aligned"
    else "topic_only", "topic_only"]
  let mode1 := modes.headD "topic_only"
  let r1 := generateFlashcardWithGemini cfg p profile mode1 o1
  match r1.card with
  | some c =>
    { card := some c, generation_mode := r1.generation_mode
      quality_reject_reason := r1.quality_reject_reason
      attempts := jsIndexOf modes mode1 + 1 }
  | none =>
    let r2 := generateFlashcardWithGemini cfg p profile "topic_only" o2
    match r2.card with
    | some c =>
      { card := some c, generation_mode := r2.generation_mode
        quality_reject_reason := r2.quality_reject_reason
        attempts := jsIndexOf modes "topic_only" + 1 }
    | none =>
      match orescue with
      | some parsed =>
        let latest := summarizeForModel p
        let card := normalizeFlashcardAnswer (truncParsedFlash parsed)
        if !(isLowQualityFlashcard card latest.study_topic profile) then
          { card := some card, generation_mode := "topic_only_rescue"
            quality_reject_reason := none, attempts := 3 }
        else
          { card := some card, generation_mode := "topic_only_rescue"
            quality_reject_reason := some "generic_flashcard_relaxed_accept"
            attempts := 3 }
      | none =>
        { card := r2.card, generation_mode := r2.generation_mode
          quality_reject_reason := r2.quality_reject_reason, attempts := 3 }

/-- Result record of `generateMascotScriptWithRetries`. -/
structure MascotRetOut where
  script : Option (List MLine)
  attempts : ℤ
  quality_reject_reason : Option String
  deriving DecidableEq

/-- `generateMascotScriptWithGemini(payload, profile)`: the oracle is the
parsed `parsed.mascot_script` array (`none` covers no-keys handled
separately, thrown exceptions, and a non-array field, all of which yield
`null` in the source). -/
def generateMascotScriptWithGemini (cfg : Config)
    (o : Option (List JLine)) : Option (List MLine) :=
  if !cfg.geminiKey && !cfg.groqKey then none
  else match o with
    | none => none
    | some xs => some (forceSpeakers 240 0 (xs.take 4))

/-- The body of the 2-iteration attempt loop of
`generateMascotScriptWithRetries`: `some` is an early `return`. -/
def mascotAttempt (profile : TopicProfile) (domain : Option String)
    (studyTopic : String) (s : Option (List MLine)) (attempt : ℤ) :
    Option MascotRetOut :=
  if hasUsableMascotScript s then
    some { script := some (forceSpeakersM 240 0 ((s.getD []).take 4))
           attempts := attempt
           quality_reject_reason :=
             if validateMascotScriptStrict s profile domain studyTopic then none
             else some "mascot_script_relaxed_accept" }
  else if validateMascotScriptStrict s profile domain studyTopic then
    some { script := s, attempts := attempt, quality_reject_reason := none }
  else none

/-- `generateMascotScriptWithRetries(payload, profile, domain)`;
`m1 m2` are the two attempts, `mrescue` the rescue round-trip. -/
def generateMascotScriptWithRetries (cfg : Config) (p : Payload)
    (profile : TopicProfile) (domain : Option String)
    (m1 m2 mrescue : Option (List JLine)) : MascotRetOut :=
  let studyTopic := (summarizeForModel p).study_topic
  match mascotAttempt profile domain studyTopic
      (generateMascotScriptWithGemini cfg m1) 1 with
  | some r => r
  | none =>
    match mascotAttempt profile domain studyTopic
        (generateMascotScriptWithGemini cfg m2) 2 with
    | some r => r
    | none =>
      let rescueScript : Option (List MLine) := match mrescue with
        | none => none
        | some xs => some (forceSpeakers 240 0 (xs.take 4))
      if hasUsableMascotScript rescueScript then
        { script := rescueScript, attempts := 3
          quality_reject_reason :=
            if validateMascotScriptStrict rescueScript profile domain studyTopic then none
            else some "mascot_script_relaxed_accept" }
      else if validateMascotScriptStrict rescueScript profile domain studyTopic then
        { script := rescueScript, attempts := 3, quality_reject_reason := none }
      else
        { script := none, attempts := 3
          quality_reject_reason := some "mascot_script_validation_failed" }

/-! ## The analyze endpoint pipeline -/

/-- The per-session context bucket (`interventionState` entry for the
request's key). -/
structure Bucket where
  events : List ModelInput
  lastInterventionAt : ℤ
  deriving DecidableEq

/-- `saveRecentContext`: push the summarized snapshot and keep the last
`MAX_CONTEXT_EVENTS = 15` entries (`splice(0, length - 15)`). -/
def pushWindow (evs : List ModelInput) (e : ModelInput) : List ModelInput :=
  let l := evs ++ [e]
  if 15 < l.length then l.drop (l.length - 15) else l

/-- All I/O outcomes one `/api/ai/analyze` request can observe. `analyzeLlm`
is the combined outcome of `runLlmJsonPrompt` on the classification prompt
followed by `JSON.parse` (an `error` is either a gateway throw or a parse
throw — both unwind to the same catch). -/
structure Oracles where
  analyzeLlm : Except String RawDecision
  flash1 : Option RawFlash
  flash2 : Option RawFlash
  flashRescue : Option RawFlash
  mascot1 : Option (List JLine)
  mascot2 : Option (List JLine)
  mascotRescue : Option (List JLine)

/-- `callGeminiAnalyze(payload, contextBucket)`: heuristic fallback when no
provider is configured, otherwise the sanitized LLM classification (an
`error` propagates to the endpoint's catch). The context bucket only feeds
the prompt, so it does not appear. -/
def callGeminiAnalyze (cfg : Config) (p : Payload)
    (llm : Except String RawDecision) : Except String Decision :=
  if !cfg.geminiKey && !cfg.groqKey then .ok (fallbackDecision p)
  else llm.map sanitizeDecision

def idleTriggers : List (Option String) :=
  [some "idle_allowed_site", some "idle_allowed_site_retry"]

def offtopicTriggers : List (Option String) :=
  [some "offtopic_site", some "offtopic_site_retry"]

/-- The two requested-intervention overrides applied right after the base
classification.  `Math.max(decision.confidence || 0, c)` collapses to
`max confidence c` because `|| 0` maps 0 to 0 and confidence is always a
finite number here. -/
def applyTriggerOverrides (p : Payload) (d : Decision) : Decision :=
  let d1 :=
    if p.requested_intervention == some "flashcard"
        && idleTriggers.contains p.trigger_type then
      { d with intervention := "flashcard"
               status := if d.status = "focused" then "mild_distraction" else d.status
               confidence := max d.confidence (72/100)
               cooldown_seconds := 15 }
    else d
  if p.requested_intervention == some "mascot_chat"
      && offtopicTriggers.contains p.trigger_type then
    { d1 with intervention := "mascot_chat"
              status := if d1.status = "focused" then "distracted" else d1.status
              confidence := max d1.confidence (75/100)
              cooldown_seconds := 15 }
  else d1

/-- Debug metadata returned alongside the decision. -/
structure GenMeta where
  generation_mode : String
  relevance_score : ℚ
  matched_terms : List String
  topic_family : String
  difficulty_level : String
  quality_reject_reason : Option String
  generation_attempts : Option ℤ
  deriving DecidableEq

/-- The `decision.intervention === "flashcard"` content-generation branch. -/
def flashcardBranch (cfg : Config) (p : Payload) (profile : TopicProfile)
    (o : Oracles) (d : Decision) (meta : GenMeta) : Decision × GenMeta :=
  if d.intervention = "flashcard" then
    let generated := generateFlashcardWithRetries cfg p profile o.flash1 o.flash2 o.flashRescue
    let meta' := { meta with generation_mode := generated.generation_mode
                             quality_reject_reason := generated.quality_reject_reason
                             generation_attempts := some generated.attempts }
    match generated.card with
    | some c => ({ d with flashcard := some c, generation_failed := false }, meta')
    | none =>
      if hasUsableFlashcard d.flashcard then
        ({ d with generation_failed := false }, meta')
      else
        ({ d with generation_failed := true, flashcard := none }, meta')
  else (d, meta)

/-- The `decision.intervention === "mascot_chat"` content-generation branch. -/
def mascotBranch (cfg : Config) (p : Payload) (profile : TopicProfile)
    (domain : Option String) (o : Oracles) (d : Decision) (meta : GenMeta) :
    Decision × GenMeta :=
  if d.intervention = "mascot_chat" then
    let generated := generateMascotScriptWithRetries cfg p profile domain
      o.mascot1 o.mascot2 o.mascotRescue
    let meta' := { meta with generation_attempts := some generated.attempts
                             quality_reject_reason :=
                               match generated.quality_reject_reason with
                               | some r => some r
                               | none => meta.quality_reject_reason }
    match generated.script with
    | some s => ({ d with mascot_script := some s, generation_failed := false }, meta')
    | none =>
      if hasUsableMascotScript d.mascot_script then
        ({ d with generation_failed := false }, meta')
      else
        ({ d with generation_failed := true, mascot_script := none }, meta')
  else (d, meta)

/-- Is the trigger an idle-allowed-site variant
(`isIdleFlashcardTrigger` in the source)? -/
def isIdleFlashcardTrigger (trigger : Option String) : Bool :=
  trigger == some "idle_allowed_site" || trigger == some "idle_allowed_site_retry"

/-- Cooldown suppression: force `intervention = "none"` and append
`"cooldown_active"` when a non-idle trigger fires while the per-session
cooldown window is still open.  `(decision.cooldown_seconds || 90)` is the
0-falsy default, and `(contextBucket.lastInterventionAt || 0)` is the
identity on the numeric field. -/
def cooldownStep (trigger : Option String) (d : Decision)
    (now lastInterventionAt : ℤ) : Decision :=
  let sinceLast := now - lastInterventionAt
  let cooldownMs := (if d.cooldown_seconds = 0 then 90 else d.cooldown_seconds) * 1000
  if d.intervention ≠ "none" && !isIdleFlashcardTrigger trigger
      && decide (sinceLast < cooldownMs) then
    { d with intervention := "none"
             reason_codes := d.reason_codes ++ ["cooldown_active"] }
  else d

/-- Confidence gating: suppress low-confidence interventions and append
`"confidence_below_threshold"`. -/
def confidenceStep (trigger : Option String) (d : Decision) : Decision :=
  if (!isIdleFlashcardTrigger trigger && d.intervention = "flashcard"
        && decide (d.confidence < 1/2))
      || (d.intervention = "mascot_chat" && decide (d.confidence < 3/5)) then
    { d with intervention := "none"
             reason_codes := d.reason_codes ++ ["confidence_below_threshold"] }
  else d

/-- The JSON body `/api/ai/analyze` responds with (`debug` is absent on the
catch path). -/
structure AnalyzeResponse where
  ok : Bool
  decision : Decision
  warning : Option String
  error : Option String
  debug : Option GenMeta
  deriving DecidableEq

/-- The initial `generationMeta` record of the handler. -/
def initMeta (profile : TopicProfile) : GenMeta :=
  { generation_mode := "none", relevance_score := profile.relevance_score
    matched_terms := profile.matched_terms, topic_family := profile.topic_family
    difficulty_level := "beginner", quality_reject_reason := none
    generation_attempts := none }

/-- The whole `/api/ai/analyze` handler, as a pure function of the request
payload, the session bucket, the clock and the I/O oracles; returns the
response body together with the bucket state after the request. -/
def analyzeHandler (cfg : Config) (p : Payload) (bucket : Bucket) (now : ℤ)
    (o : Oracles) : AnalyzeResponse × Bucket :=
  let modelInput := summarizeForModel p
  let profile := computeTopicRelevance modelInput
  let meta0 : GenMeta := initMeta profile
  match callGeminiAnalyze cfg p o.analyzeLlm with
  | .error e =>
    ({ ok := true, decision := fallbackDecision p
       warning := some "ai_failed_fallback_used", error := some (jsErrMsg e)
       debug := none }, bucket)
  | .ok base =>
    let d1 := applyTriggerOverrides p base
    let fb := flashcardBranch cfg p profile o d1 meta0
    let mb := mascotBranch cfg p profile modelInput.domain o fb.1 fb.2
    let d4 := cooldownStep p.trigger_type mb.1 now bucket.lastInterventionAt
    let d5 := confidenceStep p.trigger_type d4
    let bucket1 := if d5.intervention ≠ "none"
      then { bucket with lastInterventionAt := now } else bucket
    let bucket2 := { bucket1 with events := pushWindow bucket1.events modelInput }
    ({ ok := true, decision := d5, warning := none, error := none
       debug := some mb.2 }, bucket2)

/-! ## Lemmas: mascot-script shape -/

theorem length_forceSpeakers (t : ℕ) :
    ∀ (k : ℕ) (xs : List JLine), (forceSpeakers t k xs).length = xs.length
  | _, [] => rfl
  | k, _ :: xs => by
    simp only [forceSpeakers, List.length_cons, length_forceSpeakers t (k + 1) xs]

theorem length_forceSpeakersM (t : ℕ) :
    ∀ (k : ℕ) (xs : List MLine), (forceSpeakersM t k xs).length = xs.length
  | _, [] => rfl
  | k, _ :: xs => by
    simp only [forceSpeakersM, List.length_cons, length_forceSpeakersM t (k + 1) xs]

theorem speaker_forceSpeakers (t : ℕ) :
    ∀ (k : ℕ) (xs : List JLine) (i : ℕ) (h : i < (forceSpeakers t k xs).length),
      ((forceSpeakers t k xs).get ⟨i, h⟩).speaker = altSpeaker (k + i)
  | _, [], i, h => absurd h (by simp [forceSpeakers])
  | k, x :: xs, 0, h => by simp [forceSpeakers]
  | k, x :: xs, i + 1, h => by
    have := speaker_forceSpeakers t (k + 1) xs i (by
      simpa [forceSpeakers] using Nat.lt_of_succ_lt_succ (by
        simpa [forceSpeakers] using h))
    simpa [forceSpeakers, Nat.add_assoc, Nat.add_comm 1 i] using this

theorem speaker_forceSpeakersM (t : ℕ) :
    ∀ (k : ℕ) (xs : List MLine) (i : ℕ) (h : i < (forceSpeakersM t k xs).length),
      ((forceSpeakersM t k xs).get ⟨i, h⟩).speaker = altSpeaker (k + i)
  | _, [], i, h => absurd h (by simp [forceSpeakersM])
  | k, x :: xs, 0, h => by simp [forceSpeakersM]
  | k, x :: xs, i + 1, h => by
    have := speaker_forceSpeakersM t (k + 1) xs i (by
      simpa [forceSpeakersM] using Nat.lt_of_succ_lt_succ (by
        simpa [forceSpeakersM] using h))
    simpa [forceSpeakersM, Nat.add_assoc, Nat.add_comm 1 i] using this

/-- The shape every mascot script owned by a returned decision has:
at most 8 lines, speakers strictly alternating starting with `"devil"`. -/
def ScriptShape (l : List MLine) : Prop :=
  l.length ≤ 8 ∧ ∀ (i : ℕ) (h : i < l.length), (l.get ⟨i, h⟩).speaker = altSpeaker i

/-- A decision whose mascot script (when present) has `ScriptShape`. -/
def MascotOk (d : Decision) : Prop :=
  ∀ l, d.mascot_script = some l → ScriptShape l

theorem scriptShape_forceSpeakers (t n : ℕ) (xs : List JLine) (hn : n ≤ 8) :
    ScriptShape (forceSpeakers t 0 (xs.take n)) := by
  constructor
  · rw [length_forceSpeakers]
    exact le_trans (List.length_take_le n xs) hn
  · intro i h
    simpa using speaker_forceSpeakers t 0 (xs.take n) i h

theorem scriptShape_forceSpeakersM (t n : ℕ) (xs : List MLine) (hn : n ≤ 8) :
    ScriptShape (forceSpeakersM t 0 (xs.take n)) := by
  constructor
  · rw [length_forceSpeakersM]
    exact le_trans (List.length_take_le n xs) hn
  · intro i h
    simpa using speaker_forceSpeakersM t 0 (xs.take n) i h

/-! ## Lemmas: properties of the base decisions -/

/-- Bounds `sanitizeDecision` guarantees on confidence and cooldown. -/
def ConfBounds (d : Decision) : Prop :=
  0 ≤ d.confidence ∧ d.confidence ≤ 1 ∧
    10 ≤ d.cooldown_seconds ∧ d.cooldown_seconds ≤ 180

theorem sanitizeDecision_confBounds (raw : RawDecision) :
    ConfBounds (sanitizeDecision raw) := by
  unfold ConfBounds sanitizeDecision
  refine ⟨?_, ?_, ?_, ?_⟩
  · cases raw.confidence with
    | none => norm_num
    | some c => exact le_max_left 0 _
  · cases raw.confidence with
    | none => norm_num
    | some c => exact max_le (by norm_num) (min_le_left 1 c)
  · cases raw.cooldown_seconds with
    | none => norm_num
    | some c => exact le_max_left 10 _
  · cases raw.cooldown_seconds with
    | none => norm_num
    | some c => exact max_le (by norm_num) (min_le_left 180 _)

theorem fallbackDecision_confBounds (p : Payload) :
    ConfBounds (fallbackDecision p) := by
  unfold ConfBounds fallbackDecision
  dsimp only
  split <;> norm_num

theorem strTake_len_le (n : ℕ) (s : String) : (strTake n s).length ≤ n := by
  show (s.data.take n).length ≤ n
  simp [List.length_take]

/-- Reason-code caps: at most `n` entries, each at most 60 characters. -/
def RcBounds (n : ℕ) (d : Decision) : Prop :=
  d.reason_codes.length ≤ n ∧ ∀ s ∈ d.reason_codes, s.length ≤ 60

theorem sanitizeDecision_rcBounds (raw : RawDecision) :
    RcBounds 5 (sanitizeDecision raw) := by
  unfold RcBounds sanitizeDecision
  cases raw.reason_codes with
  | none => simp
  | some rs =>
    constructor
    · simp only [List.length_map, List.length_take]
      omega
    · intro s hs
      simp only [List.mem_map] at hs
      obtain ⟨x, _, rfl⟩ := hs
      exact strTake_len_le 60 x

theorem fallbackDecision_rcBounds (p : Payload) :
    RcBounds 5 (fallbackDecision p) := by
  unfold RcBounds fallbackDecision
  dsimp only
  split <;> constructor <;> simp <;> decide

theorem sanitizeDecision_mascotOk (raw : RawDecision) :
    MascotOk (sanitizeDecision raw) := by
  intro l h
  unfold sanitizeDecision at h
  revert h
  cases raw.mascot_script with
  | none => simp
  | some xs =>
    intro h
    have h' : some (forceSpeakers 220 0 (xs.take 8)) = some l := h
    obtain rfl : forceSpeakers 220 0 (xs.take 8) = l := Option.some.inj h'
    exact scriptShape_forceSpeakers 220 8 xs (le_refl 8)

theorem fallbackDecision_mascotOk (p : Payload) :
    MascotOk (fallbackDecision p) := by
  intro l h
  unfold fallbackDecision at h
  dsimp only at h
  revert h
  split <;> simp

/-! ## Lemmas: pipeline-step preservation -/

theorem applyTriggerOverrides_parts (p : Payload) (d : Decision) :
    (applyTriggerOverrides p d).mascot_script = d.mascot_script ∧
    (applyTriggerOverrides p d).flashcard = d.flashcard ∧
    (applyTriggerOverrides p d).reason_codes = d.reason_codes ∧
    (applyTriggerOverrides p d).generation_failed = d.generation_failed := by
  unfold applyTriggerOverrides
  dsimp only
  split <;> split <;> simp

theorem applyTriggerOverrides_confBounds (p : Payload) (d : Decision)
    (h : ConfBounds d) : ConfBounds (applyTriggerOverrides p d) := by
  obtain ⟨h0, h1, h2, h3⟩ := h
  unfold ConfBounds applyTriggerOverrides
  dsimp only
  split <;> split <;> refine ⟨?_, ?_, ?_, ?_⟩ <;>
    first
      | assumption
      | exact le_max_of_le_left h0
      | exact max_le h1 (by norm_num)
      | exact le_max_of_le_left (le_max_of_le_left h0)
      | exact max_le (max_le h1 (by norm_num)) (by norm_num)
      | norm_num

theorem flashcardBranch_parts (cfg : Config) (p : Payload) (profile : TopicProfile)
    (o : Oracles) (d : Decision) (meta : GenMeta) :
    ((flashcardBranch cfg p profile o d meta).1).mascot_script = d.mascot_script ∧
    ((flashcardBranch cfg p profile o d meta).1).status = d.status ∧
    ((flashcardBranch cfg p profile o d meta).1).confidence = d.confidence ∧
    ((flashcardBranch cfg p profile o d meta).1).cooldown_seconds = d.cooldown_seconds ∧
    ((flashcardBranch cfg p profile o d meta).1).reason_codes = d.reason_codes ∧
    ((flashcardBranch cfg p profile o d meta).1).intervention = d.intervention := by
  unfold flashcardBranch
  dsimp only
  split
  · split
    · simp
    · split <;> simp
  · simp

theorem mascotBranch_parts (cfg : Config) (p : Payload) (profile : TopicProfile)
    (domain : Option String) (o : Oracles) (d : Decision) (meta : GenMeta) :
    ((mascotBranch cfg p profile domain o d meta).1).flashcard = d.flashcard ∧
    ((mascotBranch cfg p profile domain o d meta).1).status = d.status ∧
    ((mascotBranch cfg p profile domain o d meta).1).confidence = d.confidence ∧
    ((mascotBranch cfg p profile domain o d meta).1).cooldown_seconds = d.cooldown_seconds ∧
    ((mascotBranch cfg p profile domain o d meta).1).reason_codes = d.reason_codes ∧
    ((mascotBranch cfg p profile domain o d meta).1).intervention = d.intervention := by
  unfold mascotBranch
  dsimp only
  split
  · split
    · simp
    · split <;> simp
  · simp

theorem cooldownStep_cases (t : Option String) (d : Decision) (now last : ℤ) :
    cooldownStep t d now last = d ∨
      cooldownStep t d now last =
        { d with intervention := "none"
                 reason_codes := d.reason_codes ++ ["cooldown_active"] } := by
  unfold cooldownStep
  dsimp only
  split <;> split <;> first | (left; rfl) | (right; rfl)

theorem confidenceStep_cases (t : Option String) (d : Decision) :
    confidenceStep t d = d ∨
      confidenceStep t d =
        { d with intervention := "none"
                 reason_codes := d.reason_codes ++ ["confidence_below_threshold"] } := by
  unfold confidenceStep
  split
  · right; rfl
  · left; rfl

/-! ## Lemmas: the mascot orchestrator only returns 4-line alternating scripts -/

/-- The exact shape of a forced 4-slice: at most 4 lines, alternating. -/
def Shape4 (l : List MLine) : Prop :=
  l.length ≤ 4 ∧ ∀ (i : ℕ) (hi : i < l.length), (l.get ⟨i, hi⟩).speaker = altSpeaker i

theorem shape4_forceSpeakers (t : ℕ) (xs : List JLine) :
    Shape4 (forceSpeakers t 0 (xs.take 4)) := by
  constructor
  · rw [length_forceSpeakers]
    exact List.length_take_le 4 xs
  · intro i hi
    simpa using speaker_forceSpeakers t 0 _ i hi

theorem shape4_forceSpeakersM (t : ℕ) (xs : List MLine) :
    Shape4 (forceSpeakersM t 0 (xs.take 4)) := by
  constructor
  · rw [length_forceSpeakersM]
    exact List.length_take_le 4 xs
  · intro i hi
    simpa using speaker_forceSpeakersM t 0 _ i hi

theorem genMascotWithGemini_shape (cfg : Config) (m : Option (List JLine))
    (sc : List MLine) (h : generateMascotScriptWithGemini cfg m = some sc) :
    Shape4 sc := by
  unfold generateMascotScriptWithGemini at h
  split at h
  · cases h
  · cases m with
    | none => cases h
    | some xs =>
      obtain rfl : forceSpeakers 240 0 (xs.take 4) = sc := Option.some.inj h
      exact shape4_forceSpeakers 240 xs

theorem hasUsable_some_length (sc : List MLine)
    (h : hasUsableMascotScript (some sc) = true) : 4 ≤ sc.length := by
  unfold hasUsableMascotScript at h
  by_cases h4 : sc.length < 4
  · simp [h4] at h
  · omega

theorem strict_some_length (sc : List MLine) (profile : TopicProfile)
    (domain : Option String) (topic : String)
    (h : validateMascotScriptStrict (some sc) profile domain topic = true) :
    4 ≤ sc.length := by
  unfold validateMascotScriptStrict at h
  by_cases h4 : sc.length < 4
  · simp [h4] at h
  · omega

/-- A script returned by one loop attempt has exactly 4 alternating lines. -/
theorem mascotAttempt_script_shape (profile : TopicProfile) (domain : Option String)
    (topic : String) (s : Option (List MLine)) (a : ℤ) (r : MascotRetOut)
    (hr : mascotAttempt profile domain topic s a = some r)
    (hs : ∀ sc, s = some sc → Shape4 sc)
    (l : List MLine) (hl : r.script = some l) :
    l.length = 4 ∧ ∀ (i : ℕ) (hi : i < l.length), (l.get ⟨i, hi⟩).speaker = altSpeaker i := by
  unfold mascotAttempt at hr
  split at hr
  case isTrue hu =>
    obtain rfl := Option.some.inj hr
    obtain rfl : forceSpeakersM 240 0 ((s.getD []).take 4) = l := Option.some.inj hl
    cases s with
    | none => simp [hasUsableMascotScript] at hu
    | some sc =>
      have h4 := hasUsable_some_length sc hu
      refine ⟨?_, (shape4_forceSpeakersM 240 sc).2⟩
      rw [length_forceSpeakersM]
      simp [List.length_take]
      omega
  case isFalse hu =>
    split at hr
    case isTrue hv =>
      obtain rfl := Option.some.inj hr
      have hsl : s = some l := hl
      have hshape := hs l hsl
      have h4 : 4 ≤ l.length := strict_some_length l profile domain topic (hsl ▸ hv)
      exact ⟨le_antisymm hshape.1 h4, hshape.2⟩
    case isFalse hv => cases hr

/-- Any non-null script out of `generateMascotScriptWithRetries` has exactly
4 lines with speakers devil/angel/devil/angel. -/
theorem mascotRetries_script_shape (cfg : Config) (p : Payload)
    (profile : TopicProfile) (domain : Option String)
    (m1 m2 mr : Option (List JLine)) (l : List MLine)
    (h : (generateMascotScriptWithRetries cfg p profile domain m1 m2 mr).script = some l) :
    l.length = 4 ∧ ∀ (i : ℕ) (hi : i < l.length), (l.get ⟨i, hi⟩).speaker = altSpeaker i := by
  unfold generateMascotScriptWithRetries at h
  dsimp only at h
  cases ha1 : mascotAttempt profile domain ((summarizeForModel p).study_topic)
      (generateMascotScriptWithGemini cfg m1) 1 with
  | some r =>
    rw [ha1] at h
    exact mascotAttempt_script_shape _ _ _ _ _ r ha1
      (fun sc hsc => genMascotWithGemini_shape cfg m1 sc hsc) l h
  | none =>
    rw [ha1] at h
    cases ha2 : mascotAttempt profile domain ((summarizeForModel p).study_topic)
        (generateMascotScriptWithGemini cfg m2) 2 with
    | some r =>
      rw [ha2] at h
      exact mascotAttempt_script_shape _ _ _ _ _ r ha2
        (fun sc hsc => genMascotWithGemini_shape cfg m2 sc hsc) l h
    | none =>
      rw [ha2] at h
      cases mr with
      | none =>
        simp only at h
        split at h
        case isTrue hu => simp [hasUsableMascotScript] at hu
        case isFalse hu =>
          split at h
          case isTrue hv => simp [validateMascotScriptStrict] at hv
          case isFalse hv => cases h
      | some xs =>
        simp only at h
        split at h
        case isTrue hu =>
          obtain rfl : forceSpeakers 240 0 (xs.take 4) = l := Option.some.inj h
          have h4 := hasUsable_some_length _ hu
          refine ⟨?_, (shape4_forceSpeakers 240 xs).2⟩
          have := (shape4_forceSpeakers 240 xs).1
          omega
        case isFalse hu =>
          split at h
          case isTrue hv =>
            obtain rfl : forceSpeakers 240 0 (xs.take 4) = l := Option.some.inj h
            have h4 := strict_some_length _ profile domain _ hv
            refine ⟨?_, (shape4_forceSpeakers 240 xs).2⟩
            have := (shape4_forceSpeakers 240 xs).1
            omega
          case isFalse hv => cases h

/-! ## Lemma: the base classification is fallback or sanitized LLM output -/

theorem callGeminiAnalyze_cases (cfg : Config) (p : Payload)
    (llm : Except String RawDecision) (d : Decision)
    (h : callGeminiAnalyze cfg p llm = .ok d) :
    d = fallbackDecision p ∨ ∃ raw, llm = .ok raw ∧ d = sanitizeDecision raw := by
  unfold callGeminiAnalyze at h
  split at h
  · left
    exact (Except.ok.inj h).symm
  · cases llm with
    | error e => cases h
    | ok raw =>
      right
      refine ⟨raw, rfl, ?_⟩
      have : Except.ok (ε := String) (sanitizeDecision raw) = Except.ok d := h
      exact (Except.ok.inj this).symm

/-! ## Lemmas: fields untouched by the suppression steps -/

theorem cooldownStep_parts (t : Option String) (d : Decision) (now last : ℤ) :
    (cooldownStep t d now last).status = d.status ∧
    (cooldownStep t d now last).confidence = d.confidence ∧
    (cooldownStep t d now last).cooldown_seconds = d.cooldown_seconds ∧
    (cooldownStep t d now last).flashcard = d.flashcard ∧
    (cooldownStep t d now last).mascot_script = d.mascot_script ∧
    (cooldownStep t d now last).generation_failed = d.generation_failed := by
  rcases cooldownStep_cases t d now last with h | h <;> rw [h] <;>
    exact ⟨rfl, rfl, rfl, rfl, rfl, rfl⟩

theorem confidenceStep_parts (t : Option String) (d : Decision) :
    (confidenceStep t d).status = d.status ∧
    (confidenceStep t d).confidence = d.confidence ∧
    (confidenceStep t d).cooldown_seconds = d.cooldown_seconds ∧
    (confidenceStep t d).flashcard = d.flashcard ∧
    (confidenceStep t d).mascot_script = d.mascot_script ∧
    (confidenceStep t d).generation_failed = d.generation_failed := by
  rcases confidenceStep_cases t d with h | h <;> rw [h] <;>
    exact ⟨rfl, rfl, rfl, rfl, rfl, rfl⟩

theorem fallbackDecision_intervention (p : Payload) :
    (fallbackDecision p).intervention = "none" := by
  unfold fallbackDecision
  dsimp only
  split <;> rfl

/-! ## Lemmas: the content-generation branches -/

theorem flashcardBranch_id (cfg : Config) (p : Payload) (profile : TopicProfile)
    (o : Oracles) (d : Decision) (meta : GenMeta) (h : d.intervention ≠ "flashcard") :
    flashcardBranch cfg p profile o d meta = (d, meta) := by
  unfold flashcardBranch
  simp [h]

theorem mascotBranch_id (cfg : Config) (p : Payload) (profile : TopicProfile)
    (domain : Option String) (o : Oracles) (d : Decision) (meta : GenMeta)
    (h : d.intervention ≠ "mascot_chat") :
    mascotBranch cfg p profile domain o d meta = (d, meta) := by
  unfold mascotBranch
  simp [h]

theorem mascotBranch_mascotOk (cfg : Config) (p : Payload) (profile : TopicProfile)
    (domain : Option String) (o : Oracles) (d : Decision) (meta : GenMeta)
    (h : MascotOk d) : MascotOk ((mascotBranch cfg p profile domain o d meta).1) := by
  unfold mascotBranch
  dsimp only
  split
  · cases hg : (generateMascotScriptWithRetries cfg p profile domain
        o.mascot1 o.mascot2 o.mascotRescue).script with
    | some s =>
      intro l hl
      obtain rfl : s = l := Option.some.inj hl
      obtain ⟨h4, hsp⟩ := mascotRetries_script_shape cfg p profile domain _ _ _ s hg
      exact ⟨by omega, hsp⟩
    | none =>
      dsimp only
      split
      · exact h
      · intro l hl
        cases hl
  · exact h

theorem flashcardBranch_flashOk (cfg : Config) (p : Payload) (profile : TopicProfile)
    (o : Oracles) (d : Decision) (meta : GenMeta)
    (h : ((flashcardBranch cfg p profile o d meta).1).intervention = "flashcard") :
    ((flashcardBranch cfg p profile o d meta).1).flashcard.isSome = true ∨
      ((flashcardBranch cfg p profile o d meta).1).generation_failed = true := by
  by_cases hd : d.intervention = "flashcard"
  · unfold flashcardBranch
    simp only [hd, if_pos]
    cases hcard : (generateFlashcardWithRetries cfg p profile
        o.flash1 o.flash2 o.flashRescue).card with
    | some c => left; rfl
    | none =>
      dsimp only
      split
      next hu =>
        left
        cases hf : d.flashcard with
        | none => rw [hf] at hu; simp [hasUsableFlashcard] at hu
        | some c => simp [hf]
      next hu => right; rfl
  · rw [flashcardBranch_id cfg p profile o d meta hd] at h
    exact absurd h hd

theorem mascotBranch_mascotContentOk (cfg : Config) (p : Payload)
    (profile : TopicProfile) (domain : Option String) (o : Oracles) (d : Decision)
    (meta : GenMeta)
    (h : ((mascotBranch cfg p profile domain o d meta).1).intervention = "mascot_chat") :
    ((mascotBranch cfg p profile domain o d meta).1).mascot_script.isSome = true ∨
      ((mascotBranch cfg p profile domain o d meta).1).generation_failed = true := by
  by_cases hd : d.intervention = "mascot_chat"
  · unfold mascotBranch
    simp only [hd, if_pos]
    cases hs : (generateMascotScriptWithRetries cfg p profile domain
        o.mascot1 o.mascot2 o.mascotRescue).script with
    | some s => left; rfl
    | none =>
      dsimp only
      split
      next hu =>
        left
        cases hm : d.mascot_script with
        | none => rw [hm] at hu; simp [hasUsableMascotScript] at hu
        | some s => simp [hm]
      next hu => right; rfl
  · rw [mascotBranch_id cfg p profile domain o d meta hd] at h
    exact absurd h hd

/-! ## Lemmas: the handler's final decision, decomposed -/

/-- The decision of the success path, written as the explicit composition of
the pipeline steps. -/
def okPathDecision (cfg : Config) (p : Payload) (bucket : Bucket) (now : ℤ)
    (o : Oracles) (base : Decision) : Decision :=
  let profile := computeTopicRelevance (summarizeForModel p)
  confidenceStep p.trigger_type
    (cooldownStep p.trigger_type
      ((mascotBranch cfg p profile (summarizeForModel p).domain o
        ((flashcardBranch cfg p profile o (applyTriggerOverrides p base)
          (initMeta profile)).1)
        ((flashcardBranch cfg p profile o (applyTriggerOverrides p base)
          (initMeta profile)).2)).1)
      now bucket.lastInterventionAt)

theorem analyzeHandler_decision_eq (cfg : Config) (p : Payload) (bucket : Bucket)
    (now : ℤ) (o : Oracles) :
    (analyzeHandler cfg p bucket now o).1.decision
      = match callGeminiAnalyze cfg p o.analyzeLlm with
        | .error _ => fallbackDecision p
        | .ok base => okPathDecision cfg p bucket now o base := by
  unfold analyzeHandler okPathDecision
  cases callGeminiAnalyze cfg p o.analyzeLlm <;> rfl

/-- Transfer `MascotOk` across an equality of the script field. -/
theorem mascotOk_of_eq {d d' : Decision} (h : d'.mascot_script = d.mascot_script)
    (hd : MascotOk d) : MascotOk d' := by
  intro l hl
  exact hd l (h ▸ hl)

/-- Transfer `ConfBounds` across equalities of the two bounded fields. -/
theorem confBounds_of_eq {d d' : Decision} (hc : d'.confidence = d.confidence)
    (hs : d'.cooldown_seconds = d.cooldown_seconds) (hd : ConfBounds d) :
    ConfBounds d' := by
  obtain ⟨a, b, c, e⟩ := hd
  exact ⟨hc ▸ a, hc ▸ b, hs ▸ c, hs ▸ e⟩

theorem okPathDecision_mascotOk (cfg : Config) (p : Payload) (bucket : Bucket)
    (now : ℤ) (o : Oracles) (base : Decision) (hbase : MascotOk base) :
    MascotOk (okPathDecision cfg p bucket now o base) := by
  unfold okPathDecision
  dsimp only
  apply mascotOk_of_eq (confidenceStep_parts _ _).2.2.2.2.1
  apply mascotOk_of_eq (cooldownStep_parts _ _ _ _).2.2.2.2.1
  apply mascotBranch_mascotOk
  apply mascotOk_of_eq (flashcardBranch_parts _ _ _ _ _ _).1
  exact mascotOk_of_eq (applyTriggerOverrides_parts _ _).1 hbase

theorem analyzeHandler_mascotOk (cfg : Config) (p : Payload) (bucket : Bucket)
    (now : ℤ) (o : Oracles) :
    MascotOk ((analyzeHandler cfg p bucket now o).1.decision) := by
  rw [analyzeHandler_decision_eq]
  cases hc : callGeminiAnalyze cfg p o.analyzeLlm with
  | error e => exact fallbackDecision_mascotOk p
  | ok base =>
    apply okPathDecision_mascotOk
    rcases callGeminiAnalyze_cases cfg p o.analyzeLlm base hc with h | ⟨raw, _, h⟩
    · rw [h]; exact fallbackDecision_mascotOk p
    · rw [h]; exact sanitizeDecision_mascotOk raw

theorem okPathDecision_confBounds (cfg : Config) (p : Payload) (bucket : Bucket)
    (now : ℤ) (o : Oracles) (base : Decision) (hbase : ConfBounds base) :
    ConfBounds (okPathDecision cfg p bucket now o base) := by
  unfold okPathDecision
  dsimp only
  apply confBounds_of_eq (confidenceStep_parts _ _).2.1 (confidenceStep_parts _ _).2.2.1
  apply confBounds_of_eq (cooldownStep_parts _ _ _ _).2.1 (cooldownStep_parts _ _ _ _).2.2.1
  apply confBounds_of_eq (mascotBranch_parts _ _ _ _ _ _ _).2.2.1
    (mascotBranch_parts _ _ _ _ _ _ _).2.2.2.1
  apply confBounds_of_eq (flashcardBranch_parts _ _ _ _ _ _).2.2.1
    (flashcardBranch_parts _ _ _ _ _ _).2.2.2.1
  exact applyTriggerOverrides_confBounds p base hbase

theorem analyzeHandler_confBounds (cfg : Config) (p : Payload) (bucket : Bucket)
    (now : ℤ) (o : Oracles) :
    ConfBounds ((analyzeHandler cfg p bucket now o).1.decision) := by
  rw [analyzeHandler_decision_eq]
  cases hc : callGeminiAnalyze cfg p o.analyzeLlm with
  | error e => exact fallbackDecision_confBounds p
  | ok base =>
    apply okPathDecision_confBounds
    rcases callGeminiAnalyze_cases cfg p o.analyzeLlm base hc with h | ⟨raw, _, h⟩
    · rw [h]; exact fallbackDecision_confBounds p
    · rw [h]; exact sanitizeDecision_confBounds raw

/-- The content invariant of claim C2: a chosen intervention carries its
content or admits generation failure. -/
def ContentOk (d : Decision) : Prop :=
  (d.intervention = "flashcard" →
    d.flashcard.isSome = true ∨ d.generation_failed = true) ∧
  (d.intervention = "mascot_chat" →
    d.mascot_script.isSome = true ∨ d.generation_failed = true)

theorem contentOk_of_none {d : Decision} (h : d.intervention = "none") :
    ContentOk d := by
  constructor <;> intro hI <;> rw [h] at hI <;> exact absurd hI (by decide)

/-- The confidence gate never fires on an already-suppressed decision. -/
theorem confidenceStep_of_none (t : Option String) (d : Decision)
    (h : d.intervention = "none") : confidenceStep t d = d := by
  unfold confidenceStep
  simp [h]

theorem okPathDecision_contentOk (cfg : Config) (p : Payload) (bucket : Bucket)
    (now : ℤ) (o : Oracles) (base : Decision) :
    ContentOk (okPathDecision cfg p bucket now o base) := by
  unfold okPathDecision
  dsimp only
  have h3 : ContentOk ((mascotBranch cfg p (computeTopicRelevance (summarizeForModel p))
      (summarizeForModel p).domain o
      ((flashcardBranch cfg p (computeTopicRelevance (summarizeForModel p)) o
        (applyTriggerOverrides p base)
        (initMeta (computeTopicRelevance (summarizeForModel p)))).1)
      ((flashcardBranch cfg p (computeTopicRelevance (summarizeForModel p)) o
        (applyTriggerOverrides p base)
        (initMeta (computeTopicRelevance (summarizeForModel p)))).2)).1) := by
    constructor
    · intro hI
      have hI2 := (mascotBranch_parts _ _ _ _ _ _ _).2.2.2.2.2 ▸ hI
      have hne : ((flashcardBranch cfg p (computeTopicRelevance (summarizeForModel p)) o
          (applyTriggerOverrides p base)
          (initMeta (computeTopicRelevance (summarizeForModel p)))).1).intervention
            ≠ "mascot_chat" := by
        rw [hI2]; decide
      rw [mascotBranch_id _ _ _ _ _ _ _ hne]
      rw [mascotBranch_id _ _ _ _ _ _ _ hne] at hI
      exact flashcardBranch_flashOk _ _ _ _ _ _ hI
    · exact mascotBranch_mascotContentOk _ _ _ _ _ _ _
  rcases cooldownStep_cases p.trigger_type _ now bucket.lastInterventionAt with hcd | hcd
  · rw [hcd]
    rcases confidenceStep_cases p.trigger_type _ with hcf | hcf
    · rw [hcf]; exact h3
    · rw [hcf]
      exact contentOk_of_none rfl
  · rw [hcd]
    rw [confidenceStep_of_none _ _ rfl]
    exact contentOk_of_none rfl

theorem analyzeHandler_contentOk (cfg : Config) (p : Payload) (bucket : Bucket)
    (now : ℤ) (o : Oracles) :
    ContentOk ((analyzeHandler cfg p bucket now o).1.decision) := by
  rw [analyzeHandler_decision_eq]
  cases hc : callGeminiAnalyze cfg p o.analyzeLlm with
  | error e => exact contentOk_of_none (fallbackDecision_intervention p)
  | ok base => exact okPathDecision_contentOk cfg p bucket now o base

/-- The reason-code bound the returned decision actually satisfies. -/
def RcFinal (d : Decision) : Prop :=
  d.reason_codes.length ≤ 6 ∧ ∀ s ∈ d.reason_codes, s.length ≤ 60

theorem rcBounds_of_eq {d d' : Decision} (n : ℕ)
    (h : d'.reason_codes = d.reason_codes) (hd : RcBounds n d) : RcBounds n d' := by
  obtain ⟨h1, h2⟩ := hd
  exact ⟨h ▸ h1, h ▸ h2⟩

theorem rcBounds_append {d : Decision} (x : String) (h : RcBounds 5 d)
    (hx : x.length ≤ 60) :
    (d.reason_codes ++ [x]).length ≤ 6 ∧
      ∀ s ∈ d.reason_codes ++ [x], s.length ≤ 60 := by
  obtain ⟨h1, h2⟩ := h
  constructor
  · simp only [List.length_append, List.length_cons, List.length_nil]
    omega
  · intro s hs
    rcases List.mem_append.mp hs with hs | hs
    · exact h2 s hs
    · rw [List.mem_singleton.mp hs]
      exact hx

theorem okPathDecision_rcFinal (cfg : Config) (p : Payload) (bucket : Bucket)
    (now : ℤ) (o : Oracles) (base : Decision) (hbase : RcBounds 5 base) :
    RcFinal (okPathDecision cfg p bucket now o base) := by
  unfold okPathDecision
  dsimp only
  have h3 : RcBounds 5 ((mascotBranch cfg p (computeTopicRelevance (summarizeForModel p))
      (summarizeForModel p).domain o
      ((flashcardBranch cfg p (computeTopicRelevance (summarizeForModel p)) o
        (applyTriggerOverrides p base)
        (initMeta (computeTopicRelevance (summarizeForModel p)))).1)
      ((flashcardBranch cfg p (computeTopicRelevance (summarizeForModel p)) o
        (applyTriggerOverrides p base)
        (initMeta (computeTopicRelevance (summarizeForModel p)))).2)).1) := by
    apply rcBounds_of_eq 5 (mascotBranch_parts _ _ _ _ _ _ _).2.2.2.2.1
    apply rcBounds_of_eq 5 (flashcardBranch_parts _ _ _ _ _ _).2.2.2.2.1
    exact rcBounds_of_eq 5 (applyTriggerOverrides_parts _ _).2.2.1 hbase
  rcases cooldownStep_cases p.trigger_type _ now bucket.lastInterventionAt with hcd | hcd
  · rw [hcd]
    rcases confidenceStep_cases p.trigger_type _ with hcf | hcf
    · rw [hcf]
      exact ⟨h3.1.trans (by norm_num), h3.2⟩
    · rw [hcf]
      exact rcBounds_append "confidence_below_threshold" h3 (by decide)
  · rw [hcd]
    rw [confidenceStep_of_none _ _ rfl]
    exact rcBounds_append "cooldown_active" h3 (by decide)

theorem analyzeHandler_rcFinal (cfg : Config) (p : Payload) (bucket : Bucket)
    (now : ℤ) (o : Oracles) :
    RcFinal ((analyzeHandler cfg p bucket now o).1.decision) := by
  rw [analyzeHandler_decision_eq]
  cases hc : callGeminiAnalyze cfg p o.analyzeLlm with
  | error e =>
    obtain ⟨h1, h2⟩ := fallbackDecision_rcBounds p
    exact ⟨h1.trans (by norm_num), h2⟩
  | ok base =>
    apply okPathDecision_rcFinal
    rcases callGeminiAnalyze_cases cfg p o.analyzeLlm base hc with h | ⟨raw, _, h⟩
    · rw [h]; exact fallbackDecision_rcBounds p
    · rw [h]; exact sanitizeDecision_rcBounds raw

/-! ## Concrete inputs used by counterexamples and witnesses -/

/-- An empty request payload. -/
def payload0 : Payload :=
  ⟨none, none, none, none, none, none, none, none, none, none, []⟩

/-- Gemini configured, Groq not. -/
def cfgGemini : Config := ⟨true, false⟩

/-- Oracles where every generation attempt fails and the classification
round-trip yields `llm`. -/
def oraclesOf (llm : Except String RawDecision) : Oracles :=
  ⟨llm, none, none, none, none, none, none⟩

/-- An LLM classification carrying a 2-line mascot script together with
`intervention = "none"` (nothing in the prompt contract prevents this). -/
def rawShort : RawDecision :=
  { status := some "focused", confidence := some (9/10), intervention := some "none"
    cooldown_seconds := some 90, reason_codes := some [], flashcard := none
    mascot_script := some [⟨"hello there friend"⟩, ⟨"general kenobi okay"⟩]
    generation_failed := false }

/-- An LLM classification requesting `mascot_chat` with five reason codes. -/
def rawMascot : RawDecision :=
  { status := some "distracted", confidence := some (9/10)
    intervention := some "mascot_chat", cooldown_seconds := some 90
    reason_codes := some ["a", "b", "c", "d", "e"], flashcard := none
    mascot_script := none, generation_failed := false }

/-! ## Claim C1 -/

unseal Rat.add Rat.mul Rat.inv in
/-- **C1, counterexample**: the claim says every non-null `mascot_script` on a
returned decision has length exactly 4.  With Gemini configured and the model
returning `rawShort` (a 2-line script and `intervention = "none"`), the
decision returned by the analyze pipeline carries a non-null `mascot_script`
of length 2: `sanitizeDecision` keeps up to 8 lines and the mascot_chat
branch (which would normalise to 4) never runs. -/
theorem C1_counterexample :
    ((analyzeHandler cfgGemini payload0 ⟨[], 0⟩ 1000000
        (oraclesOf (.ok rawShort))).1.decision.mascot_script.map List.length)
      = some 2 ∧ (2 : ℕ) ≠ 4 := by
  constructor
  · decide
  · decide

/-- **C1 (amended)**: for every Decision returned by the analyze pipeline, a
non-null `mascot_script` has length at most 8 (not necessarily exactly 4) and
its speakers strictly alternate devil, angel, devil, angel, … starting with
devil. -/
theorem C1_mascot_script_amended (cfg : Config) (p : Payload) (bucket : Bucket)
    (now : ℤ) (o : Oracles) (l : List MLine)
    (h : (analyzeHandler cfg p bucket now o).1.decision.mascot_script = some l) :
    l.length ≤ 8 ∧ ∀ (i : ℕ) (hi : i < l.length),
      (l.get ⟨i, hi⟩).speaker = (if i % 2 = 0 then "devil" else "angel") := by
  have hshape := analyzeHandler_mascotOk cfg p bucket now o l h
  exact ⟨hshape.1, hshape.2⟩

/-- **C1, witness**: the amended theorem applied to the concrete 2-line run. -/
theorem C1_witness :
    ([(⟨"devil", "hello there friend"⟩ : MLine),
      ⟨"angel", "general kenobi okay"⟩] : List MLine).length ≤ 8 :=
  (C1_mascot_script_amended cfgGemini payload0 ⟨[], 0⟩ 1000000
    (oraclesOf (.ok rawShort))
    [⟨"devil", "hello there friend"⟩, ⟨"angel", "general kenobi okay"⟩] rfl).1

/-! ## Claim C2 -/

/-- **C2**: for every Decision returned by the analyze pipeline, if
`intervention` is `"flashcard"` then the `flashcard` field is non-null or
`generation_failed` is true, and if `intervention` is `"mascot_chat"` then
`mascot_script` is non-null or `generation_failed` is true. -/
theorem C2_intervention_content (cfg : Config) (p : Payload) (bucket : Bucket)
    (now : ℤ) (o : Oracles) :
    ((analyzeHandler cfg p bucket now o).1.decision.intervention = "flashcard" →
      (analyzeHandler cfg p bucket now o).1.decision.flashcard.isSome = true ∨
        (analyzeHandler cfg p bucket now o).1.decision.generation_failed = true) ∧
    ((analyzeHandler cfg p bucket now o).1.decision.intervention = "mascot_chat" →
      (analyzeHandler cfg p bucket now o).1.decision.mascot_script.isSome = true ∨
        (analyzeHandler cfg p bucket now o).1.decision.generation_failed = true) :=
  analyzeHandler_contentOk cfg p bucket now o

unseal Rat.add Rat.mul Rat.inv in
/-- **C2, witness**: concrete run where the model chose `mascot_chat`, all
generation attempts failed, and the returned decision indeed shows
`generation_failed` (the disjunction holds). -/
theorem C2_witness :
    ((analyzeHandler cfgGemini payload0 ⟨[], 0⟩ 1000000
        (oraclesOf (.ok rawMascot))).1.decision.mascot_script.isSome = true) ∨
      ((analyzeHandler cfgGemini payload0 ⟨[], 0⟩ 1000000
        (oraclesOf (.ok rawMascot))).1.decision.generation_failed = true) :=
  (C2_intervention_content cfgGemini payload0 ⟨[], 0⟩ 1000000
    (oraclesOf (.ok rawMascot))).2 (by decide)

/-! ## Claim C3 -/

/-- **C3**: for every input payload (and any oracle outcome — this covers the
sanitized-LLM path, the trigger-type overrides and the heuristic fallback),
the returned decision has `confidence ∈ [0,1]` and
`cooldown_seconds ∈ [10,180]`; the same bounds hold for `sanitizeDecision`
output, for it after `applyTriggerOverrides`, and for `fallbackDecision`. -/
theorem C3_confidence_cooldown_bounds (cfg : Config) (p : Payload)
    (bucket : Bucket) (now : ℤ) (o : Oracles) (raw : RawDecision) :
    ConfBounds ((analyzeHandler cfg p bucket now o).1.decision) ∧
    ConfBounds (sanitizeDecision raw) ∧
    ConfBounds (applyTriggerOverrides p (sanitizeDecision raw)) ∧
    ConfBounds (fallbackDecision p) :=
  ⟨analyzeHandler_confBounds cfg p bucket now o,
   sanitizeDecision_confBounds raw,
   applyTriggerOverrides_confBounds p _ (sanitizeDecision_confBounds raw),
   fallbackDecision_confBounds p⟩

/-! ## Claim C8 -/

unseal Rat.add Rat.mul Rat.inv in
/-- **C8, counterexample**: the claim caps `reason_codes` at 5 entries, but a
decision entering cooldown suppression with the 5 sanitised codes gets
`"cooldown_active"` appended after the cap: the returned list has 6 entries. -/
theorem C8_counterexample :
    ((analyzeHandler cfgGemini payload0 ⟨[], 995000⟩ 1000000
        (oraclesOf (.ok rawMascot))).1.decision.reason_codes.length = 6) ∧
      ¬ (6 : ℕ) ≤ 5 := by
  constructor
  · decide
  · decide

/-- **C8 (amended)**: every Decision returned by the analyze pipeline has at
most 6 reason codes (5 from sanitisation plus at most one appended by the
cooldown or confidence policy steps, which never both fire), each at most 60
characters. -/
theorem C8_reason_codes_amended (cfg : Config) (p : Payload) (bucket : Bucket)
    (now : ℤ) (o : Oracles) :
    (analyzeHandler cfg p bucket now o).1.decision.reason_codes.length ≤ 6 ∧
      ∀ s ∈ (analyzeHandler cfg p bucket now o).1.decision.reason_codes,
        s.length ≤ 60 :=
  analyzeHandler_rcFinal cfg p bucket now o

/-- **C8, witness**: the amended bound evaluated on the 6-entry run. -/
theorem C8_witness :
    ((analyzeHandler cfgGemini payload0 ⟨[], 995000⟩ 1000000
      (oraclesOf (.ok rawMascot))).1.decision.reason_codes.length ≤ 6) :=
  (C8_reason_codes_amended cfgGemini payload0 ⟨[], 995000⟩ 1000000
    (oraclesOf (.ok rawMascot))).1

/-! ## Claim C4 -/

theorem distractedHeuristic_iff (m : ModelInput) :
    distractedHeuristic m = true ↔
      40 < m.inactivity_seconds ∨ m.is_relevant_to_topic = some false ∨
        (m.is_allowed = false ∧ m.mouse_score < 1/4) := by
  unfold distractedHeuristic
  simp [Bool.or_eq_true, Bool.and_eq_true, decide_eq_true_eq, or_assoc]

theorem fallbackDecision_status (p : Payload) :
    (fallbackDecision p).status =
      if distractedHeuristic (summarizeForModel p) then "distracted" else "focused" := by
  unfold fallbackDecision
  dsimp only
  by_cases h : distractedHeuristic (summarizeForModel p) <;> simp [h]

/-- **C4**: with no LLM provider configured, `callGeminiAnalyze` returns the
heuristic fallback decision, which classifies as `"distracted"` exactly when
`inactivity_sec > 40` OR `is_relevant_to_topic === false` OR
(`is_allowed === false` AND `mouse_score < 0.25`), is `"focused"` otherwise,
and always has `intervention = "none"` and `generation_failed = true`. -/
theorem C4_no_provider_fallback (cfg : Config) (p : Payload)
    (llm : Except String RawDecision)
    (hg : cfg.geminiKey = false) (hq : cfg.groqKey = false) :
    callGeminiAnalyze cfg p llm = .ok (fallbackDecision p) ∧
    (fallbackDecision p).intervention = "none" ∧
    (fallbackDecision p).generation_failed = true ∧
    ((40 < (summarizeForModel p).inactivity_seconds ∨
        (summarizeForModel p).is_relevant_to_topic = some false ∨
        ((summarizeForModel p).is_allowed = false ∧
          (summarizeForModel p).mouse_score < 1/4)) →
      (fallbackDecision p).status = "distracted") ∧
    (¬ (40 < (summarizeForModel p).inactivity_seconds ∨
        (summarizeForModel p).is_relevant_to_topic = some false ∨
        ((summarizeForModel p).is_allowed = false ∧
          (summarizeForModel p).mouse_score < 1/4)) →
      (fallbackDecision p).status = "focused") := by
  refine ⟨?_, fallbackDecision_intervention p, ?_, ?_, ?_⟩
  · unfold callGeminiAnalyze
    simp [hg, hq]
  · unfold fallbackDecision
    dsimp only
    split <;> rfl
  · intro hdist
    rw [fallbackDecision_status, if_pos ((distractedHeuristic_iff _).mpr hdist)]
  · intro hfoc
    rw [fallbackDecision_status,
      if_neg (fun hb => hfoc ((distractedHeuristic_iff _).mp hb))]

/-- A payload whose latest event reports 50 seconds of inactivity. -/
def payload50 : Payload :=
  { payload0 with events :=
      [{ emptyEvent with inactivity_seconds := some 50 }] }

/-- A configuration with no provider credentials at all. -/
def cfgNone : Config := ⟨false, false⟩

/-- **C4, witness**: with no API keys and `inactivity_seconds = 50`, the
pipeline's base decision is the fallback: status `"distracted"`,
intervention `"none"`, `generation_failed = true`. -/
theorem C4_witness :
    callGeminiAnalyze cfgNone payload50 (.error "x") = .ok (fallbackDecision payload50) ∧
    (fallbackDecision payload50).status = "distracted" ∧
    (fallbackDecision payload50).intervention = "none" ∧
    (fallbackDecision payload50).generation_failed = true := by
  have h := C4_no_provider_fallback cfgNone payload50 (.error "x") rfl rfl
  exact ⟨h.1, h.2.2.2.1 (Or.inl (by decide)), h.2.1, h.2.2.1⟩

/-! ## Claim C5 -/

/-- **C5**: for a non-idle trigger, a decision with `intervention ≠ "none"`
arriving while the elapsed time since `last_intervention_at` is below the
cooldown window is forced to `intervention = "none"` with `"cooldown_active"`
appended to its reason codes (and the subsequent confidence gate leaves this
suppression in place); with trigger `"idle_allowed_site"` or
`"idle_allowed_site_retry"` in the identical cooldown state, the cooldown
step does not change the decision at all. -/
theorem C5_cooldown_suppression (d : Decision) (t : Option String) (now last : ℤ)
    (ht : isIdleFlashcardTrigger t = false)
    (hi : d.intervention ≠ "none")
    (hc : now - last <
      (if d.cooldown_seconds = 0 then 90 else d.cooldown_seconds) * 1000) :
    ((confidenceStep t (cooldownStep t d now last)).intervention = "none" ∧
      "cooldown_active" ∈ (confidenceStep t (cooldownStep t d now last)).reason_codes) ∧
    cooldownStep (some "idle_allowed_site") d now last = d ∧
    cooldownStep (some "idle_allowed_site_retry") d now last = d := by
  refine ⟨?_, ?_, ?_⟩
  · have hfire : cooldownStep t d now last =
        { d with intervention := "none"
                 reason_codes := d.reason_codes ++ ["cooldown_active"] } := by
      unfold cooldownStep
      dsimp only
      rw [if_pos]
      rw [Bool.and_eq_true, Bool.and_eq_true]
      exact ⟨⟨decide_eq_true hi, by rw [ht]; rfl⟩, decide_eq_true hc⟩
    rw [hfire, confidenceStep_of_none t _ rfl]
    exact ⟨rfl, List.mem_append_right _ (List.mem_singleton.mpr rfl)⟩
  · unfold cooldownStep
    dsimp only
    rw [if_neg]
    simp [isIdleFlashcardTrigger]
  · unfold cooldownStep
    dsimp only
    rw [if_neg]
    simp [isIdleFlashcardTrigger]

/-- A concrete decision requesting `mascot_chat` with a 90s cooldown. -/
def dMascot90 : Decision :=
  ⟨"distracted", 1, "mascot_chat", 90, [], none, none, false⟩

/-- **C5, witness**: the suppression applied at `now - last = 5000 ms`,
`cooldown_seconds = 90`, with a non-idle trigger, and the idle bypass on the
same state. -/
theorem C5_witness :
    ((confidenceStep (some "manual")
        (cooldownStep (some "manual") dMascot90 10000 5000)).intervention = "none" ∧
      "cooldown_active" ∈ (confidenceStep (some "manual")
        (cooldownStep (some "manual") dMascot90 10000 5000)).reason_codes) ∧
    cooldownStep (some "idle_allowed_site") dMascot90 10000 5000 = dMascot90 ∧
    cooldownStep (some "idle_allowed_site_retry") dMascot90 10000 5000 = dMascot90 :=
  C5_cooldown_suppression dMascot90 (some "manual") 10000 5000
    (by decide) (by decide) (by decide)

/-! ## Claim C7 -/

theorem answerLetterIdx_le3 (s : String) (i : ℕ)
    (h : answerLetterIdx s = some i) : i ≤ 3 := by
  unfold answerLetterIdx at h
  cases hd : s.data with
  | nil => rw [hd] at h; cases h
  | cons c rest =>
    rw [hd] at h
    dsimp only at h
    split at h
    case isTrue hcond =>
      obtain rfl : c.toUpper.toNat - 'A'.toNat = i := Option.some.inj h
      have hletter :
          c.toUpper = 'A' ∨ c.toUpper = 'B' ∨ c.toUpper = 'C' ∨ c.toUpper = 'D' := by
        have := ((Bool.and_eq_true _ _).mp hcond).1
        simpa [Bool.or_eq_true, beq_iff_eq, or_assoc] using this
      rcases hletter with h | h | h | h <;> rw [h] <;> decide
    case isFalse hcond => cases h

/-- A raw card whose answer is the letter `"A"` but whose options list has
only 2 entries: index 0 is in range, yet the code requires 4 options. -/
def cardTwoOpts : RawFlash := ⟨"q", some ["xx", "yy"], "A", "", ""⟩

/-- **C7, counterexample**: the claim resolves a letter answer "whenever that
index is in range of the options list", but the code additionally requires
the options list to have at least 4 entries: with answer `"A"` and options
`["xx", "yy"]` the index 0 is in range yet the answer stays `"A"`. -/
theorem C7_counterexample :
    (normalizeFlashcardAnswer cardTwoOpts).answer = "A" ∧
    answerLetterIdx (jsTrim "A") = some 0 ∧
    (0 : ℕ) < ((cardTwoOpts.options).getD []).length ∧
    "A" ≠ "xx" := by
  refine ⟨?_, ?_, ?_, ?_⟩ <;> decide

/-- **C7 (amended)**: `normalizeFlashcardAnswer` resolves an answer that is a
single option letter (A–D, optionally followed by a separator) to the full
text of the option at the corresponding position whenever the options list
has at least 4 entries (in which case the letter index is always in range);
in particular `{answer:"B", options:["x","y","z","w"]}` resolves to `"y"`. -/
theorem C7_normalize_answer_amended (card : RawFlash) (i : ℕ)
    (hm : answerLetterIdx (jsTrim card.answer) = some i)
    (hlen : 4 ≤ ((card.options).getD []).length) :
    (normalizeFlashcardAnswer card).answer = ((card.options).getD []).getD i "" := by
  have hi3 : i ≤ 3 := answerLetterIdx_le3 _ i hm
  unfold normalizeFlashcardAnswer
  dsimp only
  rw [hm]
  dsimp only
  rw [if_pos (by omega : 4 ≤ ((card.options).getD []).length),
    if_pos (by omega : i < ((card.options).getD []).length)]

/-- The round-trip card of the claim. -/
def cardB : RawFlash := ⟨"q", some ["x", "y", "z", "w"], "B", "", ""⟩

/-- **C7, witness**: `normalizeFlashcardAnswer {answer:"B",
options:["x","y","z","w"]}` yields answer `"y"`. -/
theorem C7_witness : (normalizeFlashcardAnswer cardB).answer = "y" :=
  C7_normalize_answer_amended cardB 1 (by decide) (by decide)

/-! ## Claim C10 -/

theorem all_map_textlen (xs : List MLine) :
    ((xs.map (fun x => jsTrim x.text)).all (fun t => 8 ≤ t.length))
      = (xs.all (fun x => 8 ≤ (jsTrim x.text).length)) := by
  induction xs with
  | nil => rfl
  | cons x xs ih => simp [ih]

theorem all_textlen_zip (os : List String) (xs : List MLine) :
    (((os.zip xs).map (fun pr => (⟨pr.1, jsTrim pr.2.text⟩ : MLine))).all
        (fun line => 8 ≤ line.text.length))
      = ((xs.take os.length).all (fun x => 8 ≤ (jsTrim x.text).length)) := by
  induction os generalizing xs with
  | nil => simp
  | cons o os ih =>
    cases xs with
    | nil => simp
    | cons x xs => simp [ih]

/-- **C10**: the strict mascot-script validator implies the lenient usability
gate — a strictly valid script can never be rejected by
`hasUsableMascotScript`. -/
theorem C10_strict_implies_usable (script : Option (List MLine))
    (profile : TopicProfile) (domain : Option String) (topic : String)
    (h : validateMascotScriptStrict script profile domain topic = true) :
    hasUsableMascotScript script = true := by
  cases script with
  | none => simp [validateMascotScriptStrict] at h
  | some sc =>
    unfold validateMascotScriptStrict at h
    unfold hasUsableMascotScript
    dsimp only at h ⊢
    by_cases h4 : sc.length < 4
    · simp [h4] at h
    · rw [if_neg h4] at h ⊢
      by_cases h8 : ((mascotOrder.zip (sc.take 4)).map
          (fun pr => (⟨pr.1, jsTrim pr.2.text⟩ : MLine))).all
          (fun line => 8 ≤ line.text.length) = true
      · rw [all_textlen_zip mascotOrder (sc.take 4)] at h8
        simp only [mascotOrder, List.length_cons, List.length_nil] at h8
        rw [List.take_take] at h8
        norm_num at h8
        show ((sc.take 4).map (fun x => jsTrim x.text)).all
          (fun text => 8 ≤ text.length) = true
        rw [all_map_textlen]
        simp only [List.all_eq_true, decide_eq_true_eq]
        exact h8
      · simp [h8] at h

/-- A topic profile for the study topic `"physics"`. -/
def profilePhysics : TopicProfile := ⟨"physics", ["force"], ["force"], 1, "good"⟩

/-- A 4-line devil/angel script that passes the strict validator. -/
def scriptPhysics : List MLine :=
  [⟨"devil", "Forget the force homework, scroll memes instead"⟩,
   ⟨"angel", "Review the force equation once more now"⟩,
   ⟨"devil", "Skip the force drill, later is fine"⟩,
   ⟨"angel", "Solve one force problem right away"⟩]

/-- **C10, witness**: the implication applied to a concrete strictly-valid
script. -/
theorem C10_witness : hasUsableMascotScript (some scriptPhysics) = true :=
  C10_strict_implies_usable (some scriptPhysics) profilePhysics none "physics"
    (by decide)

/-! ## Claim C9 -/

/-- **C9, counterexample**: the claim says the summarized snapshot is
appended to the bucket "regardless of outcome — including when an unhandled
exception causes the heuristic fallback".  With Gemini configured and the
classification round-trip throwing, the handler's catch path returns the
fallback with HTTP success but leaves the bucket untouched: `saveRecentContext`
sits inside the `try` and is skipped. -/
theorem C9_counterexample :
    ((analyzeHandler cfgGemini payload0 ⟨[], 0⟩ 1000000
        (oraclesOf (.error "boom"))).2.events = ([] : List ModelInput)) ∧
    ((analyzeHandler cfgGemini payload0 ⟨[], 0⟩ 1000000
        (oraclesOf (.error "boom"))).1.ok = true) ∧
    ((analyzeHandler cfgGemini payload0 ⟨[], 0⟩ 1000000
        (oraclesOf (.error "boom"))).1.warning = some "ai_failed_fallback_used") ∧
    pushWindow ([] : List ModelInput) (summarizeForModel payload0) ≠ [] := by
  refine ⟨rfl, rfl, rfl, ?_⟩
  decide

/-- **C9 (amended)**: the summarized snapshot is appended to the session
bucket's rolling window on every request that reaches the end of the policy
steps — i.e. whenever the classification round-trip succeeds, and also when
no provider is configured (the fallback is returned inside the `try`); but
when an exception unwinds to the request boundary, the fallback decision is
returned with HTTP success and a warning while the bucket is left
unchanged. -/
theorem C9_context_append_amended (cfg : Config) (p : Payload) (bucket : Bucket)
    (now : ℤ) (o : Oracles) :
    (∀ raw, o.analyzeLlm = .ok raw →
      ((analyzeHandler cfg p bucket now o).2).events =
        pushWindow bucket.events (summarizeForModel p)) ∧
    (cfg.geminiKey = false ∧ cfg.groqKey = false →
      ((analyzeHandler cfg p bucket now o).2).events =
        pushWindow bucket.events (summarizeForModel p)) ∧
    (∀ e, o.analyzeLlm = .error e → (cfg.geminiKey = true ∨ cfg.groqKey = true) →
      ((analyzeHandler cfg p bucket now o).2) = bucket ∧
      (analyzeHandler cfg p bucket now o).1.decision = fallbackDecision p ∧
      (analyzeHandler cfg p bucket now o).1.ok = true ∧
      (analyzeHandler cfg p bucket now o).1.warning =
        some "ai_failed_fallback_used") := by
  refine ⟨?_, ?_, ?_⟩
  · intro raw hraw
    have hok : ∃ base, callGeminiAnalyze cfg p o.analyzeLlm = .ok base := by
      unfold callGeminiAnalyze
      split
      · exact ⟨fallbackDecision p, rfl⟩
      · rw [hraw]
        exact ⟨sanitizeDecision raw, rfl⟩
    obtain ⟨base, hbase⟩ := hok
    unfold analyzeHandler
    rw [hbase]
    dsimp only
    split <;> rfl
  · intro ⟨hg, hq⟩
    have hbase : callGeminiAnalyze cfg p o.analyzeLlm = .ok (fallbackDecision p) := by
      unfold callGeminiAnalyze
      rw [hg, hq]
      rfl
    unfold analyzeHandler
    rw [hbase]
    dsimp only
    split <;> rfl
  · intro e he hkeys
    have herr : callGeminiAnalyze cfg p o.analyzeLlm = .error e := by
      unfold callGeminiAnalyze
      rw [he]
      rw [if_neg]
      · rfl
      · rcases hkeys with h | h <;> rw [h] <;> simp
    unfold analyzeHandler
    rw [herr]
    exact ⟨rfl, rfl, rfl, rfl⟩

/-- **C9, witness**: a successful run appends the snapshot, and a keyless
run (fallback inside the `try`) appends it too. -/
theorem C9_witness :
    ((analyzeHandler cfgGemini payload0 ⟨[], 0⟩ 1000000
        (oraclesOf (.ok rawShort))).2).events =
      pushWindow ([] : List ModelInput) (summarizeForModel payload0) :=
  (C9_context_append_amended cfgGemini payload0 ⟨[], 0⟩ 1000000
    (oraclesOf (.ok rawShort))).1 rawShort rfl

/-! ## Claim C6 -/

/-- Any provider-produced error message starts with `'g'` (`gemini:`/`groq:`),
so it can never collide with the no-provider sentinel. -/
theorem ne_noprov_of_headG (s : String) (hs : s.data.headD ' ' = 'g') :
    s ≠ "no_llm_provider_configured" := by
  intro h
  rw [h] at hs
  exact absurd hs (by decide)

theorem intercalate_singleton (s x : String) : String.intercalate s [x] = x := rfl

/-- **C6**: `runLlmJsonPrompt` throws the no-provider error exactly when
neither provider has credentials; when at least one is configured and every
configured provider's call fails it throws the single joined error message;
otherwise it returns the first configured provider's successful result,
preferred provider first, other as fallback, skipping unconfigured
providers. -/
theorem C6_runLlmJsonPrompt_contract (cfg : Config) (pref : String)
    (gem gro : Except String String) :
    (runLlmJsonPrompt cfg pref gem gro = .error "no_llm_provider_configured" ↔
      cfg.geminiKey = false ∧ cfg.groqKey = false) ∧
    (∀ e1 e2, cfg.geminiKey = true → cfg.groqKey = true →
      gem = .error e1 → gro = .error e2 →
      runLlmJsonPrompt cfg pref gem gro = .error
        (String.intercalate " | "
          (if pref == "groq" then ["groq:" ++ jsErrMsg e2, "gemini:" ++ jsErrMsg e1]
           else ["gemini:" ++ jsErrMsg e1, "groq:" ++ jsErrMsg e2]))) ∧
    (∀ e1, cfg.geminiKey = true → cfg.groqKey = false → gem = .error e1 →
      runLlmJsonPrompt cfg pref gem gro = .error ("gemini:" ++ jsErrMsg e1)) ∧
    (∀ e2, cfg.geminiKey = false → cfg.groqKey = true → gro = .error e2 →
      runLlmJsonPrompt cfg pref gem gro = .error ("groq:" ++ jsErrMsg e2)) ∧
    (∀ t, pref ≠ "groq" → cfg.geminiKey = true → gem = .ok t →
      runLlmJsonPrompt cfg pref gem gro = .ok t) ∧
    (∀ t, pref = "groq" → cfg.groqKey = true → gro = .ok t →
      runLlmJsonPrompt cfg pref gem gro = .ok t) ∧
    (∀ t, pref ≠ "groq" → cfg.geminiKey = false → cfg.groqKey = true → gro = .ok t →
      runLlmJsonPrompt cfg pref gem gro = .ok t) ∧
    (∀ t, pref = "groq" → cfg.groqKey = false → cfg.geminiKey = true → gem = .ok t →
      runLlmJsonPrompt cfg pref gem gro = .ok t) ∧
    (∀ t e, pref ≠ "groq" → cfg.geminiKey = true → cfg.groqKey = true →
      gem = .error e → gro = .ok t →
      runLlmJsonPrompt cfg pref gem gro = .ok t) ∧
    (∀ t e, pref = "groq" → cfg.groqKey = true → cfg.geminiKey = true →
      gro = .error e → gem = .ok t →
      runLlmJsonPrompt cfg pref gem gro = .ok t) := by
  refine ⟨⟨?_, ?_⟩, ?_, ?_, ?_, ?_, ?_, ?_, ?_, ?_, ?_⟩
  · -- forward direction of the iff
    intro h
    cases hgb : cfg.geminiKey <;> cases hqb : cfg.groqKey
    · exact ⟨rfl, rfl⟩
    all_goals
      exfalso
      cases hp : pref == "groq" <;> cases gem <;> cases gro <;>
        simp [runLlmJsonPrompt, providerStep, hgb, hqb, hp] at h <;>
        exact absurd h (ne_noprov_of_headG _ rfl)
  · -- backward direction of the iff
    intro ⟨hg, hq⟩
    cases hp : pref == "groq" <;>
      simp [runLlmJsonPrompt, providerStep, hg, hq, hp]
  · intro e1 e2 hg hq hgem hgro
    subst hgem; subst hgro
    cases hp : pref == "groq" <;>
      simp [runLlmJsonPrompt, providerStep, hg, hq, hp]
  · intro e1 hg hq hgem
    subst hgem
    cases hp : pref == "groq" <;> cases gro <;>
      simp [runLlmJsonPrompt, providerStep, hg, hq, hp, intercalate_singleton]
  · intro e2 hg hq hgro
    subst hgro
    cases hp : pref == "groq" <;> cases gem <;>
      simp [runLlmJsonPrompt, providerStep, hg, hq, hp, intercalate_singleton]
  · intro t hp hg hgem
    subst hgem
    have hp' : (pref == "groq") = false := beq_eq_false_iff_ne.mpr hp
    simp [runLlmJsonPrompt, providerStep, hg, hp']
  · intro t hp hq hgro
    subst hgro
    subst hp
    simp [runLlmJsonPrompt, providerStep, hq]
  · intro t hp hg hq hgro
    subst hgro
    have hp' : (pref == "groq") = false := beq_eq_false_iff_ne.mpr hp
    cases gem <;> simp [runLlmJsonPrompt, providerStep, hg, hq, hp']
  · intro t hp hq hg hgem
    subst hgem
    subst hp
    cases gro <;> simp [runLlmJsonPrompt, providerStep, hg, hq]
  · intro t e hp hg hq hgem hgro
    subst hgem; subst hgro
    have hp' : (pref == "groq") = false := beq_eq_false_iff_ne.mpr hp
    simp [runLlmJsonPrompt, providerStep, hg, hq, hp']
  · intro t e hp hq hg hgro hgem
    subst hgem; subst hgro
    subst hp
    simp [runLlmJsonPrompt, providerStep, hg, hq]

/-- **C6, witness**: with neither provider configured the gateway throws
exactly the no-provider sentinel. -/
theorem C6_witness :
    runLlmJsonPrompt ⟨false, false⟩ "gemini" (.error "a") (.error "b")
      = .error "no_llm_provider_configured" :=
  (C6_runLlmJsonPrompt_contract ⟨false, false⟩ "gemini"
    (.error "a") (.error "b")).1.mpr ⟨rfl, rfl⟩

end FocusFlow
